import Mathlib

/-!
Verification development for the lucid language toolchain: a shallow
embedding, translated from the C++ sources, of the runtime value model
(src/backend/value.cpp), the bytecode model (src/backend/bytecode.cpp),
the stack virtual machine (src/backend/vm.cpp), the bytecode compiler
(src/backend/compiler.cpp), the semantic type system
(src/semantic/type_system.cpp, src/semantic/type_checker.cpp), the lexer
(src/frontend/lexer.cpp) and the expression parser
(src/frontend/parser.cpp), together with theorems settling the frozen
claims about the specification.

Modelling conventions:
- machine integers (int64_t, size_t, uint16_t, uint8_t) are modelled as
  Int / Nat, with explicit mod-2^k arithmetic where the source truncates;
- IEEE double payloads are modelled as rationals (the claims under
  verification never depend on rounding);
- C++ exceptions become Except String; std::optional becomes Option;
- unbounded loops (the VM dispatch loop, lexer scanning, recursive
  descent parsing) take an explicit fuel argument; every theorem either
  quantifies over the fuel or supplies a concretely sufficient amount;
- vector subscripts that the source leaves unchecked (undefined
  behaviour when out of range) surface as errors prefixed with
  "model boundary:"; no claim exercises those paths.
-/

namespace Lucid

/-! ## Runtime values — src/backend/value.cpp -/

/-- Tagged runtime value (class Value, value.hpp / value.cpp). The Float
payload is modelled as a rational. -/
inductive Value : Type where
  | int (i : Int)
  | float (q : ℚ)
  | bool (b : Bool)
  | string (s : String)
  | list (elements : List Value)
  | tuple (elements : List Value)
  | function (index : Nat) (name : String)

/-- Value::type_name. -/
def Value.type_name : Value → String
  | .int _ => "Int"
  | .float _ => "Float"
  | .bool _ => "Bool"
  | .string _ => "String"
  | .list _ => "List"
  | .tuple _ => "Tuple"
  | .function _ _ => "Function"

/-- Value::is_int (value.hpp kind test). -/
def Value.is_int : Value → Bool
  | .int _ => true
  | _ => false

/-- Value::is_float (value.hpp kind test). -/
def Value.is_float : Value → Bool
  | .float _ => true
  | _ => false

/-- Value::is_truthy: Bool is itself, Int nonzero, Float nonzero, String
non-empty, List/Tuple non-empty, Function always true. -/
def Value.is_truthy : Value → Bool
  | .bool b => b
  | .int i => decide (i ≠ 0)
  | .float q => decide (q ≠ 0)
  | .string s => decide (s ≠ "")
  | .list xs => !xs.isEmpty
  | .tuple xs => !xs.isEmpty
  | .function _ _ => true

mutual

/-- Value::operator==: structural equality; mismatched kinds compare
unequal; Function values compare by index only. -/
def value_eq : Value → Value → Bool
  | .int a, .int b => decide (a = b)
  | .float a, .float b => decide (a = b)
  | .bool a, .bool b => decide (a = b)
  | .string a, .string b => decide (a = b)
  | .list a, .list b => value_eq_all a b
  | .tuple a, .tuple b => value_eq_all a b
  | .function i _, .function j _ => decide (i = j)
  | _, _ => false

/-- Elementwise equality of value sequences (std::vector::operator==). -/
def value_eq_all : List Value → List Value → Bool
  | [], [] => true
  | a :: as, b :: bs => value_eq a b && value_eq_all as bs
  | _, _ => false

end

/-- Value::operator<: defined for Int, Float and String of equal kind;
everything else throws. -/
def value_lt : Value → Value → Except String Bool
  | .int a, .int b => .ok (decide (a < b))
  | .float a, .float b => .ok (decide (a < b))
  | .string a, .string b => .ok (decide (a < b))
  | a, b =>
    if a.type_name = b.type_name then
      .error ("Type " ++ a.type_name ++ " does not support ordering comparison")
    else
      .error ("Cannot compare " ++ a.type_name ++ " and " ++ b.type_name)

/-! ## Bytecode model — src/backend/bytecode.hpp / bytecode.cpp -/

/-- OpCode enum, in declaration order (the numeric value of each opcode
is its position, starting at 0). -/
inductive OpCode : Type where
  | CONSTANT
  | TRUE
  | FALSE
  | LOAD_LOCAL
  | STORE_LOCAL
  | LOAD_GLOBAL
  | ADD
  | SUB
  | MUL
  | DIV
  | MOD
  | POW
  | EQ
  | NE
  | LT
  | GT
  | LE
  | GE
  | AND
  | OR
  | NOT
  | NEGATE
  | POSITIVE
  | BUILD_LIST
  | BUILD_TUPLE
  | INDEX
  | CALL_METHOD
  | CALL_BUILTIN
  | JUMP
  | JUMP_IF_FALSE
  | JUMP_IF_TRUE
  | CALL
  | RETURN
  | POP
  | DUP
  | HALT
  deriving DecidableEq, Repr

/-- Numeric encoding of an opcode (static_cast<uint8_t>(opcode)). -/
def OpCode.toByte : OpCode → Nat
  | .CONSTANT => 0
  | .TRUE => 1
  | .FALSE => 2
  | .LOAD_LOCAL => 3
  | .STORE_LOCAL => 4
  | .LOAD_GLOBAL => 5
  | .ADD => 6
  | .SUB => 7
  | .MUL => 8
  | .DIV => 9
  | .MOD => 10
  | .POW => 11
  | .EQ => 12
  | .NE => 13
  | .LT => 14
  | .GT => 15
  | .LE => 16
  | .GE => 17
  | .AND => 18
  | .OR => 19
  | .NOT => 20
  | .NEGATE => 21
  | .POSITIVE => 22
  | .BUILD_LIST => 23
  | .BUILD_TUPLE => 24
  | .INDEX => 25
  | .CALL_METHOD => 26
  | .CALL_BUILTIN => 27
  | .JUMP => 28
  | .JUMP_IF_FALSE => 29
  | .JUMP_IF_TRUE => 30
  | .CALL => 31
  | .RETURN => 32
  | .POP => 33
  | .DUP => 34
  | .HALT => 35

/-- Decoding of an opcode byte (static_cast<OpCode>(byte)); bytes outside
the enum range reach the VM dispatch default case. -/
def OpCode.ofByte : Nat → Option OpCode
  | 0 => some .CONSTANT
  | 1 => some .TRUE
  | 2 => some .FALSE
  | 3 => some .LOAD_LOCAL
  | 4 => some .STORE_LOCAL
  | 5 => some .LOAD_GLOBAL
  | 6 => some .ADD
  | 7 => some .SUB
  | 8 => some .MUL
  | 9 => some .DIV
  | 10 => some .MOD
  | 11 => some .POW
  | 12 => some .EQ
  | 13 => some .NE
  | 14 => some .LT
  | 15 => some .GT
  | 16 => some .LE
  | 17 => some .GE
  | 18 => some .AND
  | 19 => some .OR
  | 20 => some .NOT
  | 21 => some .NEGATE
  | 22 => some .POSITIVE
  | 23 => some .BUILD_LIST
  | 24 => some .BUILD_TUPLE
  | 25 => some .INDEX
  | 26 => some .CALL_METHOD
  | 27 => some .CALL_BUILTIN
  | 28 => some .JUMP
  | 29 => some .JUMP_IF_FALSE
  | 30 => some .JUMP_IF_TRUE
  | 31 => some .CALL
  | 32 => some .RETURN
  | 33 => some .POP
  | 34 => some .DUP
  | 35 => some .HALT
  | _ => none

/-- FunctionInfo record of the bytecode function table. -/
structure FunctionInfo where
  name : String
  offset : Nat
  param_count : Nat
  local_count : Nat
  deriving Repr

/-- Bytecode program: instruction byte stream, constant pool, function
table (class Bytecode; debug locations omitted, no claim touches them). -/
structure Bytecode where
  instructions : List Nat := []
  constants : List Value := []
  functions : List FunctionInfo := []

/-- Bytecode::current_offset. -/
def Bytecode.current_offset (bc : Bytecode) : Nat :=
  bc.instructions.length

/-- Bytecode::emit(opcode): append the opcode byte. -/
def Bytecode.emit (bc : Bytecode) (op : OpCode) : Bytecode :=
  { bc with instructions := bc.instructions ++ [op.toByte] }

/-- Bytecode::emit(opcode, uint16_t): opcode byte, then the operand in
little-endian order (operand & 0xFF, then (operand >> 8) & 0xFF). -/
def Bytecode.emit_u16 (bc : Bytecode) (op : OpCode) (operand : Nat) : Bytecode :=
  { bc with instructions :=
      bc.instructions ++ [op.toByte, operand % 256, operand / 256 % 256] }

/-- Bytecode::emit(opcode, uint16_t, uint8_t): opcode byte, little-endian
uint16, then the uint8 operand. -/
def Bytecode.emit_u16_u8 (bc : Bytecode) (op : OpCode) (operand1 operand2 : Nat) : Bytecode :=
  { bc with instructions :=
      bc.instructions ++ [op.toByte, operand1 % 256, operand1 / 256 % 256, operand2 % 256] }

/-- Bytecode::add_constant: append to the pool and return the index;
throws "Too many constants" past UINT16_MAX. -/
def Bytecode.add_constant (bc : Bytecode) (v : Value) : Except String (Bytecode × Nat) :=
  let cs := bc.constants ++ [v]
  if cs.length > 65535 then .error "Too many constants"
  else .ok ({ bc with constants := cs }, cs.length - 1)

/-- Bytecode::add_function: append a FunctionInfo and return its index. -/
def Bytecode.add_function (bc : Bytecode) (name : String)
    (offset param_count local_count : Nat) : Bytecode × Nat :=
  let fs := bc.functions ++ [⟨name, offset, param_count, local_count⟩]
  ({ bc with functions := fs }, fs.length - 1)

/-- Bytecode::find_function: index of the first function with the given
name (the C++ returns -1 on a miss, modelled as none). -/
def Bytecode.find_function (bc : Bytecode) (name : String) : Option Nat :=
  bc.functions.findIdx? (fun f => f.name = name)

/-- Two's complement interpretation of a low 16-bit pattern as int16_t
(static_cast<int16_t> of a uint16_t value). -/
def to_int16 (u : Nat) : Int :=
  if u % 65536 < 32768 then (u % 65536 : Nat) else (u % 65536 : Nat) - 65536

/-- Bytecode::patch_jump(offset, jump_offset): bounds-check, then write
the int16 jump offset into the two operand bytes (little-endian two's
complement). -/
def Bytecode.patch_jump (bc : Bytecode) (offset : Nat) (jump_offset : Int) :
    Except String Bytecode :=
  if offset + 2 ≥ bc.instructions.length then .error "Invalid jump patch offset"
  else
    let u : Nat := (jump_offset % 65536).toNat
    .ok { bc with instructions :=
      ((bc.instructions.set (offset + 1) (u % 256)).set (offset + 2) (u / 256 % 256)) }

/-! ## Virtual machine — src/backend/vm.cpp -/

/-- CallFrame (vm.hpp): per-invocation record. -/
structure CallFrame where
  function_index : Nat
  instruction_pointer : Nat
  stack_base : Nat
  locals : List Value

/-- VM execution state: the operand stack (head = top; the C++ vector
grows at the back) and the call-frame stack (head = current frame). -/
structure VMState where
  stack : List Value
  call_stack : List CallFrame

/-- Outcome of one dispatch iteration: continue, or leave VM::run. -/
inductive StepResult where
  | next (s : VMState)
  | halted (s : VMState)

/-- VM::read_uint16 at a given position: two bytes, little-endian. -/
def read_u16 (ins : List Nat) (i : Nat) : Option Nat :=
  match ins.get? i, ins.get? (i + 1) with
  | some lo, some hi => some (lo + 256 * hi)
  | _, _ => none

/-- Pop n values off the operand stack, in pop order (the CALL /
BUILD_LIST / BUILD_TUPLE argument-collection loops). -/
def pop_values : Nat → List Value → Except String (List Value × List Value)
  | 0, stack => .ok ([], stack)
  | _ + 1, [] => .error "Stack underflow"
  | n + 1, v :: rest =>
    match pop_values n rest with
    | .error e => .error e
    | .ok (vs, remaining) => .ok (v :: vs, remaining)

/-- Write args into locals[0..n) (the parameter-initialization loop). -/
def write_args : List Value → Nat → List Value → List Value
  | locals, _, [] => locals
  | locals, i, a :: as => write_args (locals.set i a) (i + 1) as

/-- CallFrame construction: local_count zero-initialized locals, then the
arguments copied into the leading slots. -/
def init_locals (local_count : Nat) (args : List Value) : List Value :=
  write_args (List.replicate local_count (Value.int 0)) 0 args

/-- VM::binary_add. -/
def binary_add : Value → Value → Except String Value
  | .int a, .int b => .ok (.int (a + b))
  | .float a, .float b => .ok (.float (a + b))
  | .int a, .float b => .ok (.float ((a : ℚ) + b))
  | .float a, .int b => .ok (.float (a + (b : ℚ)))
  | a, b => .error ("Cannot add " ++ a.type_name ++ " and " ++ b.type_name)

/-- VM::binary_sub. -/
def binary_sub : Value → Value → Except String Value
  | .int a, .int b => .ok (.int (a - b))
  | .float a, .float b => .ok (.float (a - b))
  | .int a, .float b => .ok (.float ((a : ℚ) - b))
  | .float a, .int b => .ok (.float (a - (b : ℚ)))
  | a, b => .error ("Cannot subtract " ++ a.type_name ++ " and " ++ b.type_name)

/-- VM::binary_mul. -/
def binary_mul : Value → Value → Except String Value
  | .int a, .int b => .ok (.int (a * b))
  | .float a, .float b => .ok (.float (a * b))
  | .int a, .float b => .ok (.float ((a : ℚ) * b))
  | .float a, .int b => .ok (.float (a * (b : ℚ)))
  | a, b => .error ("Cannot multiply " ++ a.type_name ++ " and " ++ b.type_name)

/-- VM::binary_div: Int/Int is truncating integer division; every
numeric combination checks its divisor against zero first. -/
def binary_div : Value → Value → Except String Value
  | .int a, .int b =>
    if b = 0 then .error "Division by zero" else .ok (.int (Int.tdiv a b))
  | .float a, .float b =>
    if b = 0 then .error "Division by zero" else .ok (.float (a / b))
  | .int a, .float b =>
    if b = 0 then .error "Division by zero" else .ok (.float ((a : ℚ) / b))
  | .float a, .int b =>
    if b = 0 then .error "Division by zero" else .ok (.float (a / (b : ℚ)))
  | a, b => .error ("Cannot divide " ++ a.type_name ++ " and " ++ b.type_name)

/-- VM::binary_mod: Int/Int only (C++ % truncates toward zero). -/
def binary_mod : Value → Value → Except String Value
  | .int a, .int b =>
    if b = 0 then .error "Modulo by zero" else .ok (.int (Int.tmod a b))
  | a, b => .error ("Modulo requires two integers, got " ++ a.type_name ++ " and " ++ b.type_name)

/-- Model boundary: VM::binary_pow routes every case through the host
std::pow on doubles (truncating back for Int/Int); no claim depends on
POW, so it is left outside the embedding. -/
def binary_pow : Value → Value → Except String Value
  | a, b => .error ("model boundary: POW uses host floating-point pow on "
      ++ a.type_name ++ " and " ++ b.type_name)

/-- VM::binary_eq. -/
def binary_eq (a b : Value) : Value := .bool (value_eq a b)

/-- VM::binary_ne (Value::operator!= is the negation of operator==). -/
def binary_ne (a b : Value) : Value := .bool (!value_eq a b)

/-- VM::binary_lt. -/
def binary_lt (a b : Value) : Except String Value :=
  match value_lt a b with
  | .error e => .error e
  | .ok r => .ok (.bool r)

/-- VM::binary_gt (a > b is b < a). -/
def binary_gt (a b : Value) : Except String Value :=
  match value_lt b a with
  | .error e => .error e
  | .ok r => .ok (.bool r)

/-- VM::binary_le (a <= b is !(b < a)). -/
def binary_le (a b : Value) : Except String Value :=
  match value_lt b a with
  | .error e => .error e
  | .ok r => .ok (.bool !r)

/-- VM::binary_ge (a >= b is !(a < b)). -/
def binary_ge (a b : Value) : Except String Value :=
  match value_lt a b with
  | .error e => .error e
  | .ok r => .ok (.bool !r)

/-- VM::binary_and. -/
def binary_and (a b : Value) : Value := .bool (a.is_truthy && b.is_truthy)

/-- VM::binary_or. -/
def binary_or (a b : Value) : Value := .bool (a.is_truthy || b.is_truthy)

/-- VM::unary_not. -/
def unary_not (a : Value) : Value := .bool (!a.is_truthy)

/-- VM::unary_negate. -/
def unary_negate : Value → Except String Value
  | .int a => .ok (.int (-a))
  | .float a => .ok (.float (-a))
  | a => .error ("Cannot negate " ++ a.type_name)

/-- VM::unary_positive. -/
def unary_positive : Value → Except String Value
  | .int a => .ok (.int a)
  | .float a => .ok (.float a)
  | a => .error ("Cannot apply unary + to " ++ a.type_name)

/-- Shared shape of the binary-operator dispatch cases: pop b, pop a,
push f(a, b). -/
def step_binary (f : Value → Value → Except String Value)
    (s : VMState) (frame : CallFrame) (frames : List CallFrame) :
    Except String StepResult :=
  match s.stack with
  | b :: a :: rest =>
    match f a b with
    | .error e => .error e
    | .ok v => .ok (.next ⟨v :: rest,
        { frame with instruction_pointer := frame.instruction_pointer + 1 } :: frames⟩)
  | _ => .error "Stack underflow"

/-- Shared shape of the unary-operator dispatch cases: pop a, push f(a). -/
def step_unary (f : Value → Except String Value)
    (s : VMState) (frame : CallFrame) (frames : List CallFrame) :
    Except String StepResult :=
  match s.stack with
  | a :: rest =>
    match f a with
    | .error e => .error e
    | .ok v => .ok (.next ⟨v :: rest,
        { frame with instruction_pointer := frame.instruction_pointer + 1 } :: frames⟩)
  | _ => .error "Stack underflow"

/-- Value::operator[] on a List receiver inside the INDEX case. -/
def index_into (collection : Value) (index : Value) : Except String Value :=
  match index with
  | .int idx =>
    match collection with
    | .list xs =>
      if idx < 0 ∨ xs.length ≤ idx.toNat then
        .error ("List index out of bounds: " ++ toString idx
          ++ " (size: " ++ toString xs.length ++ ")")
      else
        match xs.get? idx.toNat with
        | some v => .ok v
        | none => .error "model boundary: list index"
    | .tuple xs =>
      if idx < 0 ∨ xs.length ≤ idx.toNat then
        .error ("Tuple index out of bounds: " ++ toString idx
          ++ " (size: " ++ toString xs.length ++ ")")
      else
        match xs.get? idx.toNat with
        | some v => .ok v
        | none => .error "model boundary: tuple index"
    | _ => .error ("Cannot index into " ++ collection.type_name)
  | _ => .error ("Index must be Int, got " ++ index.type_name)

/-- One iteration of the VM::run fetch-decode-execute loop. -/
def step (bc : Bytecode) (s : VMState) : Except String StepResult :=
  match s.call_stack with
  | [] => .error "model boundary: no active call frame"
  | frame :: frames =>
    let ip := frame.instruction_pointer
    match bc.instructions.get? ip with
    | none => .error "model boundary: instruction pointer out of range"
    | some opcode_byte =>
      match OpCode.ofByte opcode_byte with
      | none => .error ("Unknown opcode: " ++ toString opcode_byte)
      | some op =>
        match op with
        | .CONSTANT =>
          match read_u16 bc.instructions (ip + 1) with
          | none => .error "model boundary: truncated operand"
          | some idx =>
            match bc.constants.get? idx with
            | none => .error "model boundary: constant index out of range"
            | some v => .ok (.next ⟨v :: s.stack,
                { frame with instruction_pointer := ip + 3 } :: frames⟩)
        | .TRUE => .ok (.next ⟨.bool true :: s.stack,
            { frame with instruction_pointer := ip + 1 } :: frames⟩)
        | .FALSE => .ok (.next ⟨.bool false :: s.stack,
            { frame with instruction_pointer := ip + 1 } :: frames⟩)
        | .ADD => step_binary binary_add s frame frames
        | .SUB => step_binary binary_sub s frame frames
        | .MUL => step_binary binary_mul s frame frames
        | .DIV => step_binary binary_div s frame frames
        | .MOD => step_binary binary_mod s frame frames
        | .POW => step_binary binary_pow s frame frames
        | .EQ => step_binary (fun a b => .ok (binary_eq a b)) s frame frames
        | .NE => step_binary (fun a b => .ok (binary_ne a b)) s frame frames
        | .LT => step_binary binary_lt s frame frames
        | .GT => step_binary binary_gt s frame frames
        | .LE => step_binary binary_le s frame frames
        | .GE => step_binary binary_ge s frame frames
        | .AND => step_binary (fun a b => .ok (binary_and a b)) s frame frames
        | .OR => step_binary (fun a b => .ok (binary_or a b)) s frame frames
        | .NOT => step_unary (fun a => .ok (unary_not a)) s frame frames
        | .NEGATE => step_unary unary_negate s frame frames
        | .POSITIVE => step_unary unary_positive s frame frames
        | .POP =>
          match s.stack with
          | _ :: rest => .ok (.next ⟨rest,
              { frame with instruction_pointer := ip + 1 } :: frames⟩)
          | [] => .error "Stack underflow"
        | .DUP =>
          match s.stack with
          | v :: rest => .ok (.next ⟨v :: v :: rest,
              { frame with instruction_pointer := ip + 1 } :: frames⟩)
          | [] => .error "Stack underflow"
        | .LOAD_LOCAL =>
          match read_u16 bc.instructions (ip + 1) with
          | none => .error "model boundary: truncated operand"
          | some idx =>
            match frame.locals.get? idx with
            | none => .error "model boundary: local index out of range"
            | some v => .ok (.next ⟨v :: s.stack,
                { frame with instruction_pointer := ip + 3 } :: frames⟩)
        | .STORE_LOCAL =>
          match read_u16 bc.instructions (ip + 1) with
          | none => .error "model boundary: truncated operand"
          | some idx =>
            match s.stack with
            | v :: _ => .ok (.next ⟨s.stack,
                { frame with
                  instruction_pointer := ip + 3,
                  locals := frame.locals.set idx v } :: frames⟩)
            | [] => .error "Stack underflow"
        | .LOAD_GLOBAL =>
          match read_u16 bc.instructions (ip + 1) with
          | none => .error "model boundary: truncated operand"
          | some func_idx => .ok (.next ⟨.int func_idx :: s.stack,
              { frame with instruction_pointer := ip + 3 } :: frames⟩)
        | .CALL =>
          match read_u16 bc.instructions (ip + 1), bc.instructions.get? (ip + 3) with
          | some func_idx, some arg_count =>
            if h : func_idx < bc.functions.length then
              let func_info := bc.functions.get ⟨func_idx, h⟩
              if arg_count ≠ func_info.param_count then
                .error ("Function \x27" ++ func_info.name ++ "\x27 expects "
                  ++ toString func_info.param_count ++ " arguments, got "
                  ++ toString arg_count)
              else
                match pop_values arg_count s.stack with
                | .error e => .error e
                | .ok (popped, remaining) =>
                  let args := popped.reverse
                  let return_address := ip + 4
                  let new_frame : CallFrame :=
                    ⟨func_idx, func_info.offset, remaining.length,
                      init_locals func_info.local_count args⟩
                  .ok (.next ⟨remaining,
                    new_frame ::
                      { frame with instruction_pointer := return_address } :: frames⟩)
            else .error ("Invalid function index: " ++ toString func_idx)
          | _, _ => .error "model boundary: truncated operand"
        | .RETURN =>
          match frames with
          | [] => .ok (.halted ⟨s.stack, []⟩)
          | _ => .ok (.next ⟨s.stack, frames⟩)
        | .JUMP =>
          match read_u16 bc.instructions (ip + 1) with
          | none => .error "model boundary: truncated operand"
          | some u =>
            let target : Int := (ip + 3 : Int) + to_int16 u
            if target < 0 then .error "model boundary: instruction pointer wrapped"
            else .ok (.next ⟨s.stack,
              { frame with instruction_pointer := target.toNat } :: frames⟩)
        | .JUMP_IF_FALSE =>
          match read_u16 bc.instructions (ip + 1) with
          | none => .error "model boundary: truncated operand"
          | some u =>
            match s.stack with
            | [] => .error "Stack underflow"
            | condition :: _ =>
              if !condition.is_truthy then
                let target : Int := (ip + 3 : Int) + to_int16 u
                if target < 0 then .error "model boundary: instruction pointer wrapped"
                else .ok (.next ⟨s.stack,
                  { frame with instruction_pointer := target.toNat } :: frames⟩)
              else .ok (.next ⟨s.stack,
                { frame with instruction_pointer := ip + 3 } :: frames⟩)
        | .JUMP_IF_TRUE =>
          match read_u16 bc.instructions (ip + 1) with
          | none => .error "model boundary: truncated operand"
          | some u =>
            match s.stack with
            | [] => .error "Stack underflow"
            | condition :: _ =>
              if condition.is_truthy then
                let target : Int := (ip + 3 : Int) + to_int16 u
                if target < 0 then .error "model boundary: instruction pointer wrapped"
                else .ok (.next ⟨s.stack,
                  { frame with instruction_pointer := target.toNat } :: frames⟩)
              else .ok (.next ⟨s.stack,
                { frame with instruction_pointer := ip + 3 } :: frames⟩)
        | .BUILD_LIST =>
          match read_u16 bc.instructions (ip + 1) with
          | none => .error "model boundary: truncated operand"
          | some count =>
            match pop_values count s.stack with
            | .error e => .error e
            | .ok (popped, remaining) =>
              .ok (.next ⟨.list popped.reverse :: remaining,
                { frame with instruction_pointer := ip + 3 } :: frames⟩)
        | .BUILD_TUPLE =>
          match read_u16 bc.instructions (ip + 1) with
          | none => .error "model boundary: truncated operand"
          | some count =>
            match pop_values count s.stack with
            | .error e => .error e
            | .ok (popped, remaining) =>
              .ok (.next ⟨.tuple popped.reverse :: remaining,
                { frame with instruction_pointer := ip + 3 } :: frames⟩)
        | .INDEX =>
          match s.stack with
          | index :: collection :: rest =>
            match index_into collection index with
            | .error e => .error e
            | .ok v => .ok (.next ⟨v :: rest,
                { frame with instruction_pointer := ip + 1 } :: frames⟩)
          | _ => .error "Stack underflow"
        | .CALL_METHOD =>
          .error "model boundary: CALL_METHOD dispatch is not modelled (no claim exercises it)"
        | .CALL_BUILTIN =>
          .error "model boundary: CALL_BUILTIN performs host I/O (no claim exercises it)"
        | .HALT => .ok (.halted ⟨s.stack,
            { frame with instruction_pointer := ip + 1 } :: frames⟩)

/-- Run the dispatch loop for at most fuel iterations; some = the loop
returned (RETURN with an empty call stack, or HALT), none = fuel ran out
(modelling device only). -/
def run (bc : Bytecode) : Nat → VMState → Except String (Option VMState)
  | 0, _ => .ok none
  | fuel + 1, s =>
    match step bc s with
    | .error e => .error e
    | .ok (.halted s1) => .ok (some s1)
    | .ok (.next s1) => run bc fuel s1

/-- Execute exactly n dispatch iterations (stopping early on halt), to
observe intermediate VM states. -/
def stepN (bc : Bytecode) : Nat → VMState → Except String VMState
  | 0, s => .ok s
  | n + 1, s =>
    match step bc s with
    | .error e => .error e
    | .ok (.halted s1) => .ok s1
    | .ok (.next s1) => stepN bc n s1

/-- The entry-point prelude of VM::call_function: function lookup,
argument-count validation, and the initial call frame. -/
def initial_state (bc : Bytecode) (function_name : String) (args : List Value) :
    Except String VMState :=
  match bc.find_function function_name with
  | none => .error ("Function \x27" ++ function_name ++ "\x27 not found")
  | some func_idx =>
    match bc.functions.get? func_idx with
    | none => .error "model boundary: function table lookup"
    | some func_info =>
      if args.length ≠ func_info.param_count then
        .error ("Function \x27" ++ function_name ++ "\x27 expects "
          ++ toString func_info.param_count ++ " arguments, got "
          ++ toString args.length)
      else
        .ok ⟨[], [⟨func_idx, func_info.offset, 0, init_locals func_info.local_count args⟩]⟩

/-- VM::call_function: set up the initial frame, run to completion, and
pop the result off the operand stack. -/
def call_function (fuel : Nat) (bc : Bytecode) (function_name : String)
    (args : List Value) : Except String (Option Value) :=
  match initial_state bc function_name args with
  | .error e => .error e
  | .ok s0 =>
    match run bc fuel s0 with
    | .error e => .error e
    | .ok none => .ok none
    | .ok (some s1) =>
      match s1.stack with
      | [] => .error "Function returned without a value"
      | v :: _ => .ok (some v)

/-! ## Abstract syntax — src/include/lucid/frontend/ast.hpp -/

/-- Binary operators (ast::BinaryOp). -/
inductive BinaryOp : Type where
  | Add | Sub | Mul | Div | Mod | Pow
  | Eq | Ne | Lt | Gt | Le | Ge
  | And | Or
  deriving DecidableEq, Repr

/-- Unary operators (ast::UnaryOp). -/
inductive UnaryOp : Type where
  | Not | Neg | Pos
  deriving DecidableEq, Repr

/-- Binding patterns (ast::Pattern): an identifier or a tuple of
sub-patterns. -/
inductive Pattern : Type where
  | identifier (name : String)
  | tuple (elements : List Pattern)

mutual

/-- Expression nodes (ast.hpp; source locations and the float-literal
variant omitted — no claim depends on them). -/
inductive Expr : Type where
  | int_literal (value : Int)
  | bool_literal (value : Bool)
  | string_literal (value : String)
  | identifier (name : String)
  | binary (op : BinaryOp) (left right : Expr)
  | unary (op : UnaryOp) (operand : Expr)
  | tuple (elements : List Expr)
  | list (elements : List Expr)
  | index (object idx : Expr)
  | call (callee : Expr) (arguments : List Expr)
  | if_expr (condition then_branch : Expr) (else_branch : Option Expr)
  | block (statements : List Stmt)
  | lambda (params : List String) (body : Expr)

/-- Statement nodes (ast.hpp; the let type annotation is omitted — the
compiler never reads it). -/
inductive Stmt : Type where
  | let_stmt (pattern : Pattern) (initializer : Expr)
  | return_stmt (value : Expr)
  | expr_stmt (expression : Expr)

end

/-- Function definition (ast::FunctionDef): the compiler consumes only
the name, the parameter names and the body block. -/
structure FunctionDef where
  name : String
  parameters : List String
  body : Expr

/-! ## Compiler — src/backend/compiler.cpp -/

/-- Built-in function identifiers (BuiltinId enum, bytecode.hpp). -/
inductive BuiltinId : Type where
  | PRINT | PRINTLN | TO_STRING | READ_FILE | WRITE_FILE | APPEND_FILE | FILE_EXISTS
  deriving DecidableEq, Repr

/-- Numeric value of a BuiltinId. -/
def BuiltinId.toNat : BuiltinId → Nat
  | .PRINT => 0
  | .PRINTLN => 1
  | .TO_STRING => 2
  | .READ_FILE => 3
  | .WRITE_FILE => 4
  | .APPEND_FILE => 5
  | .FILE_EXISTS => 6

/-- Compiler::Scope: name-to-slot map plus running slot count. The C++
unordered_map insert-overwrite is modelled by consing, with lookups
taking the first match. -/
structure Scope where
  locals : List (String × Nat) := []
  local_count : Nat := 0

/-- Mutable state of the Compiler visitor: bytecode under construction,
scope stack (head = innermost) and the Pass-1 function-index map. -/
structure CompilerState where
  bytecode : Bytecode := {}
  scopes : List Scope := []
  function_indices : List (String × Nat) := []

/-- First-match association-list lookup (unordered_map::find). -/
def lookup_assoc {α : Type} : List (String × α) → String → Option α
  | [], _ => none
  | (k, v) :: rest, name => if k = name then some v else lookup_assoc rest name

/-- Compiler::emit(opcode) acting on the compiler state. -/
def CompilerState.emit (st : CompilerState) (op : OpCode) : CompilerState :=
  { st with bytecode := st.bytecode.emit op }

/-- Compiler::emit(opcode, uint16_t). -/
def CompilerState.emit_u16 (st : CompilerState) (op : OpCode) (operand : Nat) : CompilerState :=
  { st with bytecode := st.bytecode.emit_u16 op operand }

/-- Compiler::emit(opcode, uint16_t, uint8_t). -/
def CompilerState.emit_u16_u8 (st : CompilerState) (op : OpCode) (operand1 operand2 : Nat) :
    CompilerState :=
  { st with bytecode := st.bytecode.emit_u16_u8 op operand1 operand2 }

/-- Compiler::add_constant. -/
def CompilerState.add_constant (st : CompilerState) (v : Value) :
    Except String (CompilerState × Nat) :=
  match st.bytecode.add_constant v with
  | .error e => .error e
  | .ok (bc, idx) => .ok ({ st with bytecode := bc }, idx)

/-- Compiler::enter_scope. -/
def CompilerState.enter_scope (st : CompilerState) : CompilerState :=
  { st with scopes := {} :: st.scopes }

/-- Compiler::exit_scope. -/
def CompilerState.exit_scope (st : CompilerState) : CompilerState :=
  match st.scopes with
  | [] => st
  | _ :: rest => { st with scopes := rest }

/-- Compiler::declare_local: new slot in the innermost scope. -/
def CompilerState.declare_local (st : CompilerState) (name : String) :
    Except String (CompilerState × Nat) :=
  match st.scopes with
  | [] => .error "Cannot declare local outside of scope"
  | sc :: rest =>
    let index := sc.local_count
    .ok ({ st with scopes :=
      { locals := (name, index) :: sc.locals, local_count := index + 1 } :: rest }, index)

/-- Compiler::resolve_local: innermost-outward scope walk. -/
def resolve_local_in : List Scope → String → Option Nat
  | [], _ => none
  | sc :: rest, name =>
    match lookup_assoc sc.locals name with
    | some idx => some idx
    | none => resolve_local_in rest name

/-- Compiler::resolve_local on the compiler state. -/
def CompilerState.resolve_local (st : CompilerState) (name : String) : Option Nat :=
  resolve_local_in st.scopes name

/-- Compiler::resolve_function. -/
def CompilerState.resolve_function (st : CompilerState) (name : String) : Option Nat :=
  lookup_assoc st.function_indices name

/-- Compiler::emit_jump: emit the opcode with the 0xFFFF sentinel and
return the byte offset of the jump instruction. -/
def CompilerState.emit_jump (st : CompilerState) (op : OpCode) : CompilerState × Nat :=
  let st1 := st.emit_u16 op 65535
  (st1, st1.bytecode.current_offset - 3)

/-- Compiler::patch_jump: write back current_offset - (offset + 3),
truncated to int16, into the jump operand bytes. -/
def CompilerState.patch_jump (st : CompilerState) (offset : Nat) :
    Except String CompilerState :=
  let jump := to_int16 (st.bytecode.current_offset - (offset + 3))
  match st.bytecode.patch_jump offset jump with
  | .error e => .error e
  | .ok bc => .ok { st with bytecode := bc }

/-- Opcode selected by Compiler::visit_binary for each operator. -/
def BinaryOp.opcode : BinaryOp → OpCode
  | .Add => .ADD
  | .Sub => .SUB
  | .Mul => .MUL
  | .Div => .DIV
  | .Mod => .MOD
  | .Pow => .POW
  | .Eq => .EQ
  | .Ne => .NE
  | .Lt => .LT
  | .Gt => .GT
  | .Le => .LE
  | .Ge => .GE
  | .And => .AND
  | .Or => .OR

/-- Opcode selected by Compiler::visit_unary. -/
def UnaryOp.opcode : UnaryOp → OpCode
  | .Not => .NOT
  | .Neg => .NEGATE
  | .Pos => .POSITIVE

mutual

/-- Compiler::compile_pattern: identifier patterns declare a local (in
declaration mode) and emit STORE_LOCAL; tuple patterns emit
DUP / CONSTANT i / INDEX per element, recurse, and finish with POP. -/
def compile_pattern (st : CompilerState) (is_declaration : Bool) :
    Pattern → Except String CompilerState
  | .identifier name =>
    if is_declaration then
      match st.declare_local name with
      | .error e => .error e
      | .ok (st1, local_idx) => .ok (st1.emit_u16 .STORE_LOCAL local_idx)
    else
      match st.resolve_local name with
      | some local_idx => .ok (st.emit_u16 .STORE_LOCAL local_idx)
      | none => .error ("Undefined variable: " ++ name)
  | .tuple elements =>
    match compile_tuple_pattern st is_declaration 0 elements with
    | .error e => .error e
    | .ok st1 => .ok (st1.emit .POP)

/-- The per-element loop of Compiler::compile_pattern for tuple
patterns (i is the running element index). -/
def compile_tuple_pattern (st : CompilerState) (is_declaration : Bool) (i : Nat) :
    List Pattern → Except String CompilerState
  | [] => .ok st
  | p :: ps =>
    let st1 := st.emit .DUP
    match st1.add_constant (.int i) with
    | .error e => .error e
    | .ok (st2, idx_const) =>
      let st3 := (st2.emit_u16 .CONSTANT idx_const).emit .INDEX
      match compile_pattern st3 is_declaration p with
      | .error e => .error e
      | .ok st4 => compile_tuple_pattern st4 is_declaration (i + 1) ps

end

/-- The built-in-name check at the top of Compiler::visit_call: a direct
identifier callee matching one of the seven built-in names. -/
def builtin_id_for : Expr → Option BuiltinId
  | .identifier name =>
    if name = "print" then some .PRINT
    else if name = "println" then some .PRINTLN
    else if name = "to_string" then some .TO_STRING
    else if name = "read_file" then some .READ_FILE
    else if name = "write_file" then some .WRITE_FILE
    else if name = "append_file" then some .APPEND_FILE
    else if name = "file_exists" then some .FILE_EXISTS
    else none
  | _ => none

mutual

/-- Compiler expression visitors (visit_int_literal .. visit_lambda),
dispatching on the node kind as ExprVisitor does. -/
def compile_expr (st : CompilerState) : Expr → Except String CompilerState
  | .int_literal value =>
    match st.add_constant (.int value) with
    | .error e => .error e
    | .ok (st1, const_idx) => .ok (st1.emit_u16 .CONSTANT const_idx)
  | .string_literal value =>
    match st.add_constant (.string value) with
    | .error e => .error e
    | .ok (st1, const_idx) => .ok (st1.emit_u16 .CONSTANT const_idx)
  | .bool_literal value =>
    .ok (if value then st.emit .TRUE else st.emit .FALSE)
  | .identifier name =>
    match st.resolve_local name with
    | some local_idx => .ok (st.emit_u16 .LOAD_LOCAL local_idx)
    | none =>
      match st.resolve_function name with
      | some func_idx => .ok (st.emit_u16 .LOAD_GLOBAL func_idx)
      | none => .error ("Undefined identifier: " ++ name)
  | .binary op left right =>
    match compile_expr st left with
    | .error e => .error e
    | .ok st1 =>
      match compile_expr st1 right with
      | .error e => .error e
      | .ok st2 => .ok (st2.emit op.opcode)
  | .unary op operand =>
    match compile_expr st operand with
    | .error e => .error e
    | .ok st1 => .ok (st1.emit op.opcode)
  | .tuple elements =>
    match compile_expr_list st elements with
    | .error e => .error e
    | .ok st1 => .ok (st1.emit_u16 .BUILD_TUPLE elements.length)
  | .list elements =>
    match compile_expr_list st elements with
    | .error e => .error e
    | .ok st1 => .ok (st1.emit_u16 .BUILD_LIST elements.length)
  | .index object idx =>
    match compile_expr st object with
    | .error e => .error e
    | .ok st1 =>
      match compile_expr st1 idx with
      | .error e => .error e
      | .ok st2 => .ok (st2.emit .INDEX)
  | .call callee arguments =>
    match builtin_id_for callee with
    | some bid =>
      match compile_expr_list st arguments with
      | .error e => .error e
      | .ok st1 => .ok (st1.emit_u16_u8 .CALL_BUILTIN bid.toNat arguments.length)
    | none =>
      match compile_expr_list st arguments with
      | .error e => .error e
      | .ok st1 =>
        match compile_expr st1 callee with
        | .error e => .error e
        | .ok st2 =>
          match callee with
          | .identifier name =>
            match st2.resolve_function name with
            | some func_idx =>
              let st3 : CompilerState := { st2 with bytecode :=
                { st2.bytecode with instructions :=
                    (st2.bytecode.instructions.dropLast.dropLast.dropLast) } }
              .ok (st3.emit_u16_u8 .CALL func_idx arguments.length)
            | none => .error "Only direct function calls supported in Day 2"
          | _ => .error "Only direct function calls supported in Day 2"
  | .if_expr condition then_branch else_branch =>
    match compile_expr st condition with
    | .error e => .error e
    | .ok st1 =>
      let (st2, else_jump) := st1.emit_jump .JUMP_IF_FALSE
      let st3 := st2.emit .POP
      match compile_expr st3 then_branch with
      | .error e => .error e
      | .ok st4 =>
        let (st5, end_jump) := st4.emit_jump .JUMP
        match st5.patch_jump else_jump with
        | .error e => .error e
        | .ok st6 =>
          let st7 := st6.emit .POP
          let st8e : Except String CompilerState :=
            match else_branch with
            | some else_expr => compile_expr st7 else_expr
            | none => .ok (st7.emit .FALSE)
          match st8e with
          | .error e => .error e
          | .ok st8 => st8.patch_jump end_jump
  | .block statements =>
    match statements with
    | [] => .ok (st.emit .FALSE)
    | _ => compile_block_stmts st statements
  | .lambda _ _ => .error "Lambda expressions not yet implemented"

/-- The left-to-right element loop shared by visit_tuple / visit_list /
argument compilation. -/
def compile_expr_list (st : CompilerState) : List Expr → Except String CompilerState
  | [] => .ok st
  | e :: es =>
    match compile_expr st e with
    | .error e1 => .error e1
    | .ok st1 => compile_expr_list st1 es

/-- Compiler statement visitors (visit_let / visit_return /
visit_expr_stmt). -/
def compile_stmt (st : CompilerState) : Stmt → Except String CompilerState
  | .let_stmt pattern initializer =>
    match compile_expr st initializer with
    | .error e => .error e
    | .ok st1 => compile_pattern st1 true pattern
  | .return_stmt value =>
    match compile_expr st value with
    | .error e => .error e
    | .ok st1 => .ok (st1.emit .RETURN)
  | .expr_stmt expression =>
    match compile_expr st expression with
    | .error e => .error e
    | .ok st1 => .ok (st1.emit .POP)

/-- Compiler::visit_block statement loop for a non-empty block: all
statements compile normally except a final ExprStmt, whose inner
expression compiles without the trailing POP (the let and return cases
below are the corresponding compile_stmt cases, spelled out so the
recursion stays structural). -/
def compile_block_stmts (st : CompilerState) : List Stmt → Except String CompilerState
  | [] => .ok st
  | [.expr_stmt expression] => compile_expr st expression
  | [.let_stmt pattern initializer] =>
    match compile_expr st initializer with
    | .error e => .error e
    | .ok st1 => compile_pattern st1 true pattern
  | [.return_stmt value] =>
    match compile_expr st value with
    | .error e => .error e
    | .ok st1 => .ok (st1.emit .RETURN)
  | s :: rest =>
    match compile_stmt st s with
    | .error e => .error e
    | .ok st1 => compile_block_stmts st1 rest

end

/-- Pass 1 (Compiler::collect_functions): reserve a FunctionInfo per
function and remember its table index. -/
def collect_functions (st : CompilerState) : List FunctionDef → CompilerState
  | [] => st
  | f :: fs =>
    let offset := st.bytecode.current_offset
    let param_count := f.parameters.length
    let (bc1, func_idx) := st.bytecode.add_function f.name offset param_count param_count
    collect_functions
      { st with
        bytecode := bc1
        function_indices := (f.name, func_idx) :: st.function_indices } fs

/-- Parameter declaration loop at the top of Compiler::compile_function. -/
def declare_params (st : CompilerState) : List String → Except String CompilerState
  | [] => .ok st
  | p :: ps =>
    match st.declare_local p with
    | .error e => .error e
    | .ok (st1, _) => declare_params st1 ps

/-- Overwrite the offset of functions[idx] (compile_function step 1). -/
def Bytecode.set_function_offset (bc : Bytecode) (idx offset : Nat) : Bytecode :=
  match bc.functions.get? idx with
  | some fi => { bc with functions := bc.functions.set idx { fi with offset := offset } }
  | none => bc

/-- Overwrite the local_count of functions[idx] (compile_function step 5). -/
def Bytecode.set_function_local_count (bc : Bytecode) (idx local_count : Nat) : Bytecode :=
  match bc.functions.get? idx with
  | some fi => { bc with functions := bc.functions.set idx { fi with local_count := local_count } }
  | none => bc

/-- Pass 2 (Compiler::compile_function): fix up the offset, enter a
scope, declare parameters, compile the body, add the implicit RETURN if
the last emitted byte is not RETURN, and record the final local count. -/
def compile_function (st : CompilerState) (f : FunctionDef) : Except String CompilerState :=
  match lookup_assoc st.function_indices f.name with
  | none => .error "model boundary: function index missing from Pass 1 map"
  | some func_idx =>
    let st1 : CompilerState :=
      { st with bytecode := st.bytecode.set_function_offset func_idx st.bytecode.current_offset }
    let st2 := st1.enter_scope
    match declare_params st2 f.parameters with
    | .error e => .error e
    | .ok st3 =>
      match compile_expr st3 f.body with
      | .error e => .error e
      | .ok st4 =>
        let st5 :=
          if st4.bytecode.instructions = []
              ∨ st4.bytecode.instructions.getLast? ≠ some OpCode.RETURN.toByte then
            st4.emit .RETURN
          else st4
        let final_count := (st5.scopes.headD {}).local_count
        let st6 : CompilerState :=
          { st5 with bytecode := st5.bytecode.set_function_local_count func_idx final_count }
        .ok st6.exit_scope

/-- The Pass-2 loop over all program functions. -/
def compile_functions (st : CompilerState) : List FunctionDef → Except String CompilerState
  | [] => .ok st
  | f :: fs =>
    match compile_function st f with
    | .error e => .error e
    | .ok st1 => compile_functions st1 fs

/-- Compiler::compile: Pass 1, Pass 2, then the final HALT. -/
def compile (program : List FunctionDef) : Except String Bytecode :=
  let st1 := collect_functions {} program
  match compile_functions st1 program with
  | .error e => .error e
  | .ok st2 => .ok (st2.emit .HALT).bytecode

/-! ## Semantic types — src/semantic/type_system.cpp -/

/-- PrimitiveKind enum. -/
inductive PrimitiveKind : Type where
  | Int | Float | String | Bool
  deriving DecidableEq, Repr

/-- Semantic types (SemanticType class hierarchy: PrimitiveType,
ListType, TupleType, FunctionType, TypeVariable, UnknownType). -/
inductive SemanticType : Type where
  | primitive (primitive_kind : PrimitiveKind)
  | list (element_type : SemanticType)
  | tuple (element_types : List SemanticType)
  | function (param_types : List SemanticType) (return_type : SemanticType)
  | type_variable (name : String)
  | unknown

mutual

/-- The virtual equals methods: each variant first checks the other
side's kind tag, then compares structurally; UnknownType::equals is
constantly false. -/
def SemanticType.equals : SemanticType → SemanticType → Bool
  | .primitive pk, .primitive pk2 => decide (pk = pk2)
  | .primitive _, _ => false
  | .list e, .list e2 => e.equals e2
  | .list _, _ => false
  | .tuple es, .tuple es2 => semantic_equals_all es es2
  | .tuple _, _ => false
  | .function ps r, .function ps2 r2 => semantic_equals_all ps ps2 && r.equals r2
  | .function _ _, _ => false
  | .type_variable n, .type_variable n2 => decide (n = n2)
  | .type_variable _, _ => false
  | .unknown, _ => false

/-- Size check plus elementwise equals (the loops in TupleType::equals
and FunctionType::equals). -/
def semantic_equals_all : List SemanticType → List SemanticType → Bool
  | [], [] => true
  | a :: as, b :: bs => a.equals b && semantic_equals_all as bs
  | _, _ => false

end

mutual

/-- The virtual to_string methods of the type hierarchy. -/
def SemanticType.to_string : SemanticType → String
  | .primitive .Int => "Int"
  | .primitive .Float => "Float"
  | .primitive .String => "String"
  | .primitive .Bool => "Bool"
  | .list e => "List[" ++ e.to_string ++ "]"
  | .tuple [] => "()"
  | .tuple es => "(" ++ semantic_to_string_sep es ++ ")"
  | .function ps r => "(" ++ semantic_to_string_sep ps ++ ") -> " ++ r.to_string
  | .type_variable n => n
  | .unknown => "?"

/-- Comma-separated rendering of a type sequence. -/
def semantic_to_string_sep : List SemanticType → String
  | [] => ""
  | [t] => t.to_string
  | t :: ts => t.to_string ++ ", " ++ semantic_to_string_sep ts

end

/-! ## Type checker fragment — src/semantic/type_checker.cpp -/

/-- The numeric-operand test of TypeChecker::check_binary_arithmetic:
a Primitive type whose kind is Int or Float. -/
def is_numeric_type : SemanticType → Bool
  | .primitive .Int => true
  | .primitive .Float => true
  | _ => false

/-- TypeChecker::check_binary_arithmetic, as a function of the two
operand types it computed for the sub-expressions: a non-numeric
operand records an error and yields Unknown; otherwise the result is
Float if either operand kind is Float (type promotion), else Int. -/
def check_binary_arithmetic (left_type right_type : SemanticType) :
    SemanticType × List String :=
  if !is_numeric_type left_type then
    (.unknown, ["Arithmetic operator requires numeric type, got \x27"
      ++ left_type.to_string ++ "\x27"])
  else if !is_numeric_type right_type then
    (.unknown, ["Arithmetic operator requires numeric type, got \x27"
      ++ right_type.to_string ++ "\x27"])
  else
    match left_type, right_type with
    | .primitive .Float, _ => (.primitive .Float, [])
    | _, .primitive .Float => (.primitive .Float, [])
    | _, _ => (.primitive .Int, [])

/-! ## Lexer — src/frontend/lexer.cpp

Every scanning loop takes an explicit fuel argument; tokenize passes
source.length + 1, which is sufficient because each loop iteration
advances the current position by at least one character. -/

/-- TokenType enum (token.hpp), in declaration order. -/
inductive TokenType : Type where
  | Function | Returns | Let | If | Else | Return | Lambda
  | TypeInt | TypeFloat | TypeString | TypeBool | TypeList
  | IntLiteral | FloatLiteral | StringLiteral | True | False
  | Plus | Minus | Star | Slash | Percent | Power
  | Equal | NotEqual | Less | Greater | LessEqual | GreaterEqual
  | And | Or | Not
  | Assign | Colon | Dot | Comma
  | LeftParen | RightParen | LeftBrace | RightBrace | LeftBracket | RightBracket
  | Identifier | Newline | Eof | Error
  deriving DecidableEq, Repr

/-- Literal payload of a token (int64_t / double / std::string variant;
the double payload is modelled by the cleaned digit string, since
claims never consult float literal values). -/
inductive TokenValue : Type where
  | int_val (i : Int)
  | float_digits (cleaned : String)
  | string_val (s : String)
  deriving DecidableEq, Repr

/-- Token: kind, lexeme and source location (the filename field of
SourceLocation is omitted; it is pass-through data). -/
structure Token where
  type : TokenType
  lexeme : String
  line : Nat
  column : Nat
  offset : Nat
  length : Nat
  value : Option TokenValue
  deriving DecidableEq, Repr

/-- Mutable scanning state of the Lexer (current_, line_, line_start_,
start_), with the source passed separately. -/
structure LexState where
  current : Nat
  line : Nat
  line_start : Nat
  start : Nat
  deriving DecidableEq, Repr

/-- Lexer::is_digit. -/
def is_digit (c : Char) : Bool := decide ('0' ≤ c ∧ c ≤ '9')

/-- Lexer::is_alpha. -/
def is_alpha (c : Char) : Bool :=
  decide (('a' ≤ c ∧ c ≤ 'z') ∨ ('A' ≤ c ∧ c ≤ 'Z'))

/-- Lexer::is_alnum. -/
def is_alnum (c : Char) : Bool := is_alpha c || is_digit c

/-- Substring of the source (string_view source_.substr(start, len)). -/
def slice (src : List Char) (start len : Nat) : String :=
  String.mk ((src.drop start).take len)

/-- Lexer::make_token: lexeme from start_ to current_, 1-based column
from the line start. -/
def make_token (src : List Char) (st : LexState) (type : TokenType)
    (value : Option TokenValue) : Token :=
  { type := type
    lexeme := slice src st.start (st.current - st.start)
    line := st.line
    column := st.start - st.line_start + 1
    offset := st.start
    length := st.current - st.start
    value := value }

/-- Lexer::error_token: an Error token with an empty lexeme and the
message as its string payload. -/
def error_token (st : LexState) (message : String) : Token :=
  { type := .Error
    lexeme := ""
    line := st.line
    column := st.start - st.line_start + 1
    offset := st.start
    length := st.current - st.start
    value := some (.string_val message) }

/-- Lexer::skip_whitespace: space, tab and carriage return advance;
newline additionally bumps the line counter and line start. -/
def skip_whitespace : Nat → List Char → LexState → LexState
  | 0, _, st => st
  | fuel + 1, src, st =>
    match src.get? st.current with
    | none => st
    | some c =>
      if c = ' ' ∨ c = '\t' ∨ c = '\r' then
        skip_whitespace fuel src { st with current := st.current + 1 }
      else if c = '\n' then
        skip_whitespace fuel src
          { st with
            current := st.current + 1
            line := st.line + 1
            line_start := st.current + 1 }
      else st

/-- Lexer::skip_comment: advance to end of line. -/
def skip_comment : Nat → List Char → LexState → LexState
  | 0, _, st => st
  | fuel + 1, src, st =>
    match src.get? st.current with
    | none => st
    | some c =>
      if c ≠ '\n' then skip_comment fuel src { st with current := st.current + 1 }
      else st

/-- Lexer::skip_multiline_comment: consume until the matching close
marker; the depth counter is carried but never incremented (the source
does not treat nested openers specially). -/
def skip_multiline_comment : Nat → List Char → LexState → Nat → LexState
  | 0, _, st, _ => st
  | fuel + 1, src, st, depth =>
    if depth = 0 then st
    else
      match src.get? st.current with
      | none => st
      | some c =>
        if c = ']' ∧ src.get? (st.current + 1) = some '#' then
          skip_multiline_comment fuel src { st with current := st.current + 2 } (depth - 1)
        else if c = '\n' then
          skip_multiline_comment fuel src
            { st with
              current := st.current + 1
              line := st.line + 1
              line_start := st.current + 1 } depth
        else
          skip_multiline_comment fuel src { st with current := st.current + 1 } depth

/-- A while-peek-advance loop: the first position at or after i whose
character fails the predicate (the identifier / number scanning loops). -/
def consume_while (p : Char → Bool) : Nat → List Char → Nat → Nat
  | 0, _, i => i
  | fuel + 1, src, i =>
    match src.get? i with
    | none => i
    | some c => if p c then consume_while p fuel src (i + 1) else i

/-- The fixed keyword table of Lexer::identifier_type. -/
def keywords : List (String × TokenType) :=
  [("function", .Function), ("returns", .Returns), ("let", .Let),
   ("if", .If), ("else", .Else), ("return", .Return), ("lambda", .Lambda),
   ("Int", .TypeInt), ("Float", .TypeFloat), ("String", .TypeString),
   ("Bool", .TypeBool), ("List", .TypeList),
   ("true", .True), ("false", .False),
   ("and", .And), ("or", .Or), ("not", .Not)]

/-- Lexer::identifier_type: keyword lookup, defaulting to Identifier. -/
def identifier_type (lexeme : String) : TokenType :=
  match lookup_assoc keywords lexeme with
  | some t => t
  | none => .Identifier

/-- Lexer::scan_identifier. -/
def scan_identifier (fuel : Nat) (src : List Char) (st : LexState) : Token × LexState :=
  let cur := consume_while (fun c => is_alnum c || c = '_') fuel src st.current
  let st1 := { st with current := cur }
  let lexeme := slice src st1.start (st1.current - st1.start)
  (make_token src st1 (identifier_type lexeme) none, st1)

/-- Decimal value of a digit string (the int64 branch of
std::from_chars). -/
def digits_value : List Char → Nat → Nat
  | [], acc => acc
  | c :: cs, acc => digits_value cs (acc * 10 + (c.toNat - 48))

/-- Lexer::scan_number: integer part with underscores, optional decimal
part (a dot counts only when followed by a digit), optional exponent
with optional sign; underscores are stripped before parsing. An integer
literal exceeding int64 range yields an Error token (from_chars
result_out_of_range). Model boundary: the double parse of a float
literal is modelled as always succeeding, keeping the cleaned digit
string as the payload. -/
def scan_number (fuel : Nat) (src : List Char) (st : LexState) : Token × LexState :=
  let i1 := consume_while (fun c => is_digit c || c = '_') fuel src st.current
  let dot : Bool :=
    (src.get? i1 == some '.') &&
      (match src.get? (i1 + 1) with | some d => is_digit d | none => false)
  if dot then
    scan_number_exponent fuel src st
      (consume_while (fun c => is_digit c || c = '_') fuel src (i1 + 1)) true
  else
    scan_number_exponent fuel src st i1 false
where
  /-- The exponent branch and final literal parse of scan_number. -/
  scan_number_exponent (fuel : Nat) (src : List Char) (st : LexState)
      (i2 : Nat) (is_float1 : Bool) : Token × LexState :=
    if src.get? i2 = some 'e' ∨ src.get? i2 = some 'E' then
      let i3 := if src.get? (i2 + 1) = some '+' ∨ src.get? (i2 + 1) = some '-'
        then i2 + 2 else i2 + 1
      match src.get? i3 with
      | some d =>
        if is_digit d then
          scan_number_finish src st
            (consume_while (fun c => is_digit c || c = '_') fuel src i3) true
        else
          let st1 := { st with current := i3 }
          (error_token st1 "Invalid exponent in number literal", st1)
      | none =>
        let st1 := { st with current := i3 }
        (error_token st1 "Invalid exponent in number literal", st1)
    else
      scan_number_finish src st i2 is_float1
  /-- Lexeme cleaning and literal parsing at the end of scan_number. -/
  scan_number_finish (src : List Char) (st : LexState) (iEnd : Nat)
      (is_float1 : Bool) : Token × LexState :=
    let st1 := { st with current := iEnd }
    let lexeme := (src.drop st1.start).take (st1.current - st1.start)
    let cleaned := lexeme.filter (fun c => c ≠ '_')
    if is_float1 then
      (make_token src st1 .FloatLiteral (some (.float_digits (String.mk cleaned))), st1)
    else
      let v := digits_value cleaned 0
      if v > 9223372036854775807 then
        (error_token st1 "Invalid integer literal", st1)
      else
        (make_token src st1 .IntLiteral (some (.int_val v)), st1)

/-- Lexer::scan_string: the opening quote is already consumed; escapes
for n, t, r, backslash and quote; unknown escapes kept literally;
embedded newlines tracked; EOF before the closing quote is an error. -/
def scan_string : Nat → List Char → LexState → String → Token × LexState
  | 0, _, st, _ => (error_token st "Unterminated string literal", st)
  | fuel + 1, src, st, acc =>
    match src.get? st.current with
    | none => (error_token st "Unterminated string literal", st)
    | some c =>
      if c = '"' then
        let st1 := { st with current := st.current + 1 }
        (make_token src st1 .StringLiteral (some (.string_val acc)), st1)
      else if c = '\n' then
        scan_string fuel src
          { st with
            current := st.current + 1
            line := st.line + 1
            line_start := st.current + 1 } (acc.push c)
      else if c = '\\' then
        match src.get? (st.current + 1) with
        | none =>
          let st1 := { st with current := st.current + 1 }
          (error_token st1 "Unterminated string literal", st1)
        | some esc =>
          let st1 := { st with current := st.current + 2 }
          if esc = 'n' then scan_string fuel src st1 (acc.push '\n')
          else if esc = 't' then scan_string fuel src st1 (acc.push '\t')
          else if esc = 'r' then scan_string fuel src st1 (acc.push '\r')
          else if esc = '\\' then scan_string fuel src st1 (acc.push '\\')
          else if esc = '"' then scan_string fuel src st1 (acc.push '"')
          else scan_string fuel src st1 ((acc.push '\\').push esc)
      else
        scan_string fuel src { st with current := st.current + 1 } (acc.push c)

/-- Lexer::scan_token: skip whitespace, then dispatch on the first
character; comments recurse to find the next real token (the fuel
bounds that recursion). -/
def scan_token : Nat → List Char → LexState → Token × LexState
  | 0, src, st => (make_token src st .Eof none, st)
  | fuel + 1, src, st =>
    let st1 := skip_whitespace (src.length + 1) src st
    match src.get? st1.current with
    | none => (make_token src st1 .Eof none, st1)
    | some c =>
      let st2 : LexState := { st1 with start := st1.current, current := st1.current + 1 }
      if c = '(' then (make_token src st2 .LeftParen none, st2)
      else if c = ')' then (make_token src st2 .RightParen none, st2)
      else if c = '{' then (make_token src st2 .LeftBrace none, st2)
      else if c = '}' then (make_token src st2 .RightBrace none, st2)
      else if c = '[' then (make_token src st2 .LeftBracket none, st2)
      else if c = ']' then (make_token src st2 .RightBracket none, st2)
      else if c = ',' then (make_token src st2 .Comma none, st2)
      else if c = '.' then (make_token src st2 .Dot none, st2)
      else if c = ':' then (make_token src st2 .Colon none, st2)
      else if c = '+' then (make_token src st2 .Plus none, st2)
      else if c = '-' then (make_token src st2 .Minus none, st2)
      else if c = '%' then (make_token src st2 .Percent none, st2)
      else if c = '/' then (make_token src st2 .Slash none, st2)
      else if c = '*' then
        if src.get? st2.current = some '*' then
          let st3 := { st2 with current := st2.current + 1 }
          (make_token src st3 .Power none, st3)
        else (make_token src st2 .Star none, st2)
      else if c = '=' then
        if src.get? st2.current = some '=' then
          let st3 := { st2 with current := st2.current + 1 }
          (make_token src st3 .Equal none, st3)
        else (make_token src st2 .Assign none, st2)
      else if c = '!' then
        if src.get? st2.current = some '=' then
          let st3 := { st2 with current := st2.current + 1 }
          (make_token src st3 .NotEqual none, st3)
        else (error_token st2 "Unexpected character \x27!\x27", st2)
      else if c = '<' then
        if src.get? st2.current = some '=' then
          let st3 := { st2 with current := st2.current + 1 }
          (make_token src st3 .LessEqual none, st3)
        else (make_token src st2 .Less none, st2)
      else if c = '>' then
        if src.get? st2.current = some '=' then
          let st3 := { st2 with current := st2.current + 1 }
          (make_token src st3 .GreaterEqual none, st3)
        else (make_token src st2 .Greater none, st2)
      else if c = '"' then
        scan_string (src.length + 1) src st2 ""
      else if c = '#' then
        if src.get? st2.current = some '[' then
          let st3 := { st2 with current := st2.current + 1 }
          scan_token fuel src (skip_multiline_comment (src.length + 1) src st3 1)
        else
          scan_token fuel src (skip_comment (src.length + 1) src st2)
      else if is_digit c then
        scan_number (src.length + 1) src st2
      else if is_alpha c || c = '_' then
        scan_identifier (src.length + 1) src st2
      else
        (error_token st2 ("Unexpected character: \x27" ++ String.mk [c] ++ "\x27"), st2)

/-- Lexer::next_token: EOF when the source is exhausted, otherwise
scan. -/
def next_token (fuel : Nat) (src : List Char) (st : LexState) : Token × LexState :=
  if src.length ≤ st.current then (make_token src st .Eof none, st)
  else scan_token fuel src st

/-- The while loop of Lexer::tokenize: collect tokens while not at the
end, stopping after pushing the first Eof or Error token. -/
def tokenize_loop : Nat → List Char → LexState → List Token × LexState
  | 0, _, st => ([], st)
  | fuel + 1, src, st =>
    if st.current < src.length then
      match next_token (src.length + 1) src st with
      | (tok, st1) =>
        if tok.type = .Eof ∨ tok.type = .Error then ([tok], st1)
        else
          match tokenize_loop fuel src st1 with
          | (toks, st2) => (tok :: toks, st2)
    else ([], st)

/-- Lexer::tokenize on an explicit character list: drive the loop, then
append the Eof sentinel unless the last token already is one. -/
def tokenize_chars (src : List Char) : List Token :=
  match tokenize_loop (src.length + 1) src ⟨0, 1, 0, 0⟩ with
  | (tokens, st) =>
    match tokens.getLast? with
    | none => tokens ++ [make_token src st .Eof none]
    | some t =>
      if t.type ≠ .Eof then tokens ++ [make_token src st .Eof none] else tokens

/-- Lexer::tokenize. -/
def tokenize (source : String) : List Token :=
  tokenize_chars source.data

/-! ## Parser expression core — src/frontend/parser.cpp

The embedding covers the precedence-climbing engine
(Parser::parse_precedence with its associativity handling), the unary
prefix layer, the postfix dispatch checks and the primary expressions
needed by the claims (literals and identifiers). Primary productions
for grouping, lists, lambdas, ifs and blocks, and the postfix call /
method / index bodies, are model boundaries: no claim exercises them,
and the token streams in the theorems below contain none of their
opening tokens. -/

/-- Parser token-stream state (tokens_ and current_). -/
structure ParserState where
  tokens : List Token
  current : Nat

/-- Parser::peek: the current token, or the final token once past the
end (the token vector always ends with Eof). -/
def ParserState.peek (st : ParserState) : Token :=
  match st.tokens.get? st.current with
  | some t => t
  | none => st.tokens.getLastD ⟨.Eof, "", 0, 0, 0, 0, none⟩

/-- Parser::is_at_end. -/
def ParserState.is_at_end (st : ParserState) : Bool :=
  st.peek.type == .Eof

/-- Parser::advance (the consumed token is read through peek before
advancing where needed). -/
def ParserState.advance (st : ParserState) : ParserState :=
  if st.is_at_end then st else { st with current := st.current + 1 }

/-- Parser::check. -/
def ParserState.check (st : ParserState) (t : TokenType) : Bool :=
  if st.is_at_end then false else st.peek.type == t

/-- Parser::get_binary_precedence (PREC_LOWEST = 0 for
non-operators). -/
def get_binary_precedence : TokenType → Nat
  | .Or => 10
  | .And => 20
  | .Equal | .NotEqual | .Less | .Greater | .LessEqual | .GreaterEqual => 30
  | .Plus | .Minus => 40
  | .Star | .Slash | .Percent => 50
  | .Power => 60
  | _ => 0

/-- Parser::is_binary_operator. -/
def is_binary_operator (t : TokenType) : Bool :=
  get_binary_precedence t > 0

/-- Parser::is_unary_operator. -/
def is_unary_operator (t : TokenType) : Bool :=
  t == .Not || t == .Minus || t == .Plus

/-- Parser::is_right_associative: only ** is right-associative. -/
def is_right_associative (t : TokenType) : Bool :=
  t == .Power

/-- ast::binary_op_from_token. -/
def binary_op_from_token : TokenType → Option BinaryOp
  | .Plus => some .Add
  | .Minus => some .Sub
  | .Star => some .Mul
  | .Slash => some .Div
  | .Percent => some .Mod
  | .Power => some .Pow
  | .Equal => some .Eq
  | .NotEqual => some .Ne
  | .Less => some .Lt
  | .Greater => some .Gt
  | .LessEqual => some .Le
  | .GreaterEqual => some .Ge
  | .And => some .And
  | .Or => some .Or
  | _ => none

/-- ast::unary_op_from_token. -/
def unary_op_from_token : TokenType → Option UnaryOp
  | .Not => some .Not
  | .Minus => some .Neg
  | .Plus => some .Pos
  | _ => none

/-- A while-match(Newline) skip loop inside expression parsing. -/
def skip_newlines : Nat → ParserState → ParserState
  | 0, st => st
  | fuel + 1, st =>
    if st.check .Newline then skip_newlines fuel st.advance else st

/-- Parser::parse_primary, restricted to the literal and identifier
productions (see the section comment for the model boundary). -/
def parse_primary (st : ParserState) : Except String (Expr × ParserState) :=
  let token := st.peek
  if token.type == .IntLiteral then
    match token.value with
    | some (.int_val v) => .ok (.int_literal v, st.advance)
    | _ => .error "Integer literal missing value"
  else if token.type == .FloatLiteral then
    .error "model boundary: float literals are outside the embedded AST"
  else if token.type == .StringLiteral then
    match token.value with
    | some (.string_val s) => .ok (.string_literal s, st.advance)
    | _ => .error "String literal missing value"
  else if token.type == .True then .ok (.bool_literal true, st.advance)
  else if token.type == .False then .ok (.bool_literal false, st.advance)
  else if token.type == .Identifier then .ok (.identifier token.lexeme, st.advance)
  else if token.type == .LeftParen then
    .error "model boundary: grouping and tuple productions are not embedded"
  else if token.type == .LeftBracket then
    .error "model boundary: list literal production is not embedded"
  else if token.type == .Lambda then
    .error "model boundary: lambda production is not embedded"
  else if token.type == .If then
    .error "model boundary: if production is not embedded"
  else if token.type == .LeftBrace then
    .error "model boundary: block production is not embedded"
  else
    .error ("Unexpected token in expression: \x27" ++ token.lexeme ++ "\x27")

/-- Parser::parse_postfix: the tight postfix chain loop; the call,
method-call and index bodies are model boundaries (their opening
tokens never occur in the claim token streams), and any other token
ends the chain, returning the expression unchanged. -/
def parse_postfix_expr (e : Expr) (st : ParserState) :
    Except String (Expr × ParserState) :=
  if st.check .LeftParen then
    .error "model boundary: call postfix is not embedded"
  else if st.check .Dot then
    .error "model boundary: method-call postfix is not embedded"
  else if st.check .LeftBracket then
    .error "model boundary: index postfix is not embedded"
  else .ok (e, st)

mutual

/-- Parser::parse_precedence: prefix layer, postfix layer, then the
infix climbing loop. -/
def parse_precedence (fuel : Nat) (min_prec : Nat) (st : ParserState) :
    Except String (Expr × ParserState) :=
  match fuel with
  | 0 => .error "model boundary: parser fuel exhausted"
  | fuel + 1 =>
    match parse_prefix_expr fuel st with
    | .error e => .error e
    | .ok (left0, st1) =>
      match parse_postfix_expr left0 st1 with
      | .error e => .error e
      | .ok (left, st2) => parse_precedence_loop fuel min_prec left st2
termination_by structural fuel

/-- The while loop inside Parser::parse_precedence: skip newlines, stop
below min_prec, pick next_min_prec by associativity, parse the right
operand, fold into a BinaryExpr. -/
def parse_precedence_loop (fuel : Nat) (min_prec : Nat) (left : Expr) (st : ParserState) :
    Except String (Expr × ParserState) :=
  match fuel with
  | 0 => .error "model boundary: parser fuel exhausted"
  | fuel + 1 =>
    if st.is_at_end then .ok (left, st)
    else
      let st1 := skip_newlines (st.tokens.length + 1) st
      if !is_binary_operator st1.peek.type then .ok (left, st1)
      else
        let prec := get_binary_precedence st1.peek.type
        if prec < min_prec then .ok (left, st1)
        else
          let next_min_prec := if !is_right_associative st1.peek.type then prec + 1 else prec
          let op_token := st1.peek
          let st2 := st1.advance
          let st3 := skip_newlines (st2.tokens.length + 1) st2
          match parse_precedence fuel next_min_prec st3 with
          | .error e => .error e
          | .ok (right, st4) =>
            match binary_op_from_token op_token.type with
            | none => .error "Invalid binary operator"
            | some op => parse_precedence_loop fuel min_prec (.binary op left right) st4
termination_by structural fuel

/-- Parser::parse_prefix: unary operators recurse at PREC_UNARY,
otherwise fall through to parse_primary. -/
def parse_prefix_expr (fuel : Nat) (st : ParserState) :
    Except String (Expr × ParserState) :=
  match fuel with
  | 0 => .error "model boundary: parser fuel exhausted"
  | fuel + 1 =>
    if is_unary_operator st.peek.type then
      let op_token := st.peek
      let st1 := st.advance
      match parse_precedence fuel 70 st1 with
      | .error e => .error e
      | .ok (operand, st2) =>
        match unary_op_from_token op_token.type with
        | none => .error "Invalid unary operator"
        | some op => .ok (.unary op operand, st2)
    else parse_primary st
termination_by structural fuel

end

/-- Parser::parse_expression: precedence climbing from PREC_LOWEST.
The fuel bounds the recursion depth; every recursive descent either
consumes a token first or moves to a strictly tighter precedence
level, so a linear amount is sufficient. -/
def parse_expression (st : ParserState) : Except String (Expr × ParserState) :=
  parse_precedence (4 * st.tokens.length + 8) 0 st

/-! ## Concrete fixtures and checking helpers for the claim theorems -/

deriving instance Fintype for TokenType

deriving instance Fintype for BinaryOp

/-- Compile a program and execute its main function (the
lex-parse-check-compile-run driver tail, for programs given as ASTs). -/
def compile_and_run (program : List FunctionDef) (fuel : Nat) : Except String (Option Value) :=
  match compile program with
  | .error e => .error e
  | .ok bc => call_function fuel bc "main" []

/-- Compile a program and observe the VM state after exactly k dispatch
iterations of main. -/
def observe_after (program : List FunctionDef) (k : Nat) : Except String VMState :=
  match compile program with
  | .error e => .error e
  | .ok bc =>
    match initial_state bc "main" [] with
    | .error e => .error e
    | .ok s0 => stepN bc k s0

/-- The spec scenario: function main() returns Int
with body let (x, y) = (10, 20) followed by return x + y. -/
def let_tuple_main_program : List FunctionDef :=
  [⟨"main", [],
    .block [
      .let_stmt (.tuple [.identifier "x", .identifier "y"])
        (.tuple [.int_literal 10, .int_literal 20]),
      .return_stmt (.binary .Add (.identifier "x") (.identifier "y"))]⟩]

/-- A callee whose body runs a let statement before returning:
function f() returns Int with body let x = 5 followed by return x,
called from main with zero arguments. -/
def callee_with_let_program : List FunctionDef :=
  [⟨"f", [], .block [
      .let_stmt (.identifier "x") (.int_literal 5),
      .return_stmt (.identifier "x")]⟩,
   ⟨"main", [], .block [
      .return_stmt (.call (.identifier "f") [])]⟩]

/-- A callee whose body only evaluates its return expression:
function f() returns Int with body return 5, called from main. -/
def callee_return_only_program : List FunctionDef :=
  [⟨"f", [], .block [.return_stmt (.int_literal 5)]⟩,
   ⟨"main", [], .block [
      .return_stmt (.call (.identifier "f") [])]⟩]

/-- function main() returns Int with body let x = 42 followed by
return x. -/
def let_identifier_program : List FunctionDef :=
  [⟨"main", [], .block [
      .let_stmt (.identifier "x") (.int_literal 42),
      .return_stmt (.identifier "x")]⟩]

/-- An Identifier token as the lexer would produce it (location data is
irrelevant to parsing). -/
def identifier_token (name : String) : Token :=
  ⟨.Identifier, name, 1, 1, 0, 0, none⟩

/-- An operator token of the given type. -/
def operator_token (t : TokenType) : Token :=
  ⟨t, "", 1, 1, 0, 0, none⟩

/-- The Eof sentinel token. -/
def eof_token : Token :=
  ⟨.Eof, "", 1, 1, 0, 0, none⟩

/-- The token stream of the schema a OP1 b OP2 c with identifier
atoms. -/
def schema_tokens (t1 t2 : TokenType) : List Token :=
  [identifier_token "a", operator_token t1, identifier_token "b",
   operator_token t2, identifier_token "c", eof_token]

/-- The fourteen token types with positive binary precedence (the rows
of the precedence table in Parser::get_binary_precedence). -/
def binary_op_tokens : List TokenType :=
  [.Or, .And, .Equal, .NotEqual, .Less, .Greater, .LessEqual, .GreaterEqual,
   .Plus, .Minus, .Star, .Slash, .Percent, .Power]

mutual

/-- Syntactic equality test on the expression constructors the parser
claims exercise (literal, identifier, binary, unary); every other
constructor pair tests false, so a true result implies equality. -/
def expr_beq : Expr → Expr → Bool
  | .int_literal x, .int_literal y => decide (x = y)
  | .bool_literal x, .bool_literal y => decide (x = y)
  | .string_literal x, .string_literal y => decide (x = y)
  | .identifier x, .identifier y => decide (x = y)
  | .binary o1 l1 r1, .binary o2 l2 r2 =>
    decide (o1 = o2) && expr_beq l1 l2 && expr_beq r1 r2
  | .unary o1 e1, .unary o2 e2 => decide (o1 = o2) && expr_beq e1 e2
  | _, _ => false

end

/-- Boolean check that parsing a token stream as an expression yields
exactly the given tree. -/
def parse_result_is (ts : List Token) (e : Expr) : Bool :=
  match parse_expression ⟨ts, 0⟩ with
  | .ok (e1, _) => expr_beq e1 e
  | .error _ => false

/-! ## Helper lemmas -/

/-- Popping exactly the length of a stack prefix returns that prefix and
the remainder. -/
theorem pop_values_append (popped rest : List Value) :
    pop_values popped.length (popped ++ rest) = .ok (popped, rest) := by
  induction popped with
  | nil => rfl
  | cons v vs ih => simp [pop_values, ih]

/-! ## Claim C1 -/

/-- C1 (code bug): the spec requires that executing the compiled code of
function main() returns Int with body let (x, y) = (10, 20) and
return x + y binds x to 10 and y to 20 and returns Int 30 without a
runtime error. The code instead aborts with the runtime error "Cannot
index into Int": STORE_LOCAL only peeks the operand stack, so after the
first element is stored the destructuring sequence DUP / CONSTANT 1 /
INDEX duplicates the just-stored element (Int 10) instead of the tuple
and then tries to index into it. -/
theorem C1_tuple_destructuring_raises :
    compile_and_run let_tuple_main_program 100 = .error "Cannot index into Int" := by
  rfl

/-! ## Claim C4 -/

/-- C4: the semantic Unknown type is never equal to any type, in either
argument order: UnknownType::equals is constantly false, and every other
variant's equals first rejects the kind-tag mismatch with Unknown. -/
theorem C4_unknown_never_equal (t : SemanticType) :
    SemanticType.equals .unknown t = false ∧ SemanticType.equals t .unknown = false := by
  refine ⟨by cases t <;> rfl, by cases t <;> rfl⟩

/-! ## Claim C6 -/

/-- C6: DIV on two Int operands is truncating integer division; any
numeric DIV whose divisor is Int 0 or Float 0, in any operand-kind
combination, raises "Division by zero"; MOD is defined only for Int/Int,
raises "Modulo by zero" on a zero divisor, and raises the
two-integers type error whenever an operand is not Int. -/
theorem C6_div_mod_zero :
    (∀ a b : Int, b ≠ 0 → binary_div (.int a) (.int b) = .ok (.int (Int.tdiv a b)))
    ∧ (∀ a : Int, binary_div (.int a) (.int 0) = .error "Division by zero")
    ∧ (∀ a : Int, binary_div (.int a) (.float 0) = .error "Division by zero")
    ∧ (∀ q : ℚ, binary_div (.float q) (.float 0) = .error "Division by zero")
    ∧ (∀ q : ℚ, binary_div (.float q) (.int 0) = .error "Division by zero")
    ∧ (∀ a b : Int, b ≠ 0 → binary_mod (.int a) (.int b) = .ok (.int (Int.tmod a b)))
    ∧ (∀ a : Int, binary_mod (.int a) (.int 0) = .error "Modulo by zero")
    ∧ (∀ a b : Value, a.is_int = false ∨ b.is_int = false →
        binary_mod a b = .error ("Modulo requires two integers, got "
          ++ a.type_name ++ " and " ++ b.type_name)) := by
  refine ⟨fun a b h => by simp [binary_div, h], fun a => rfl, fun a => rfl,
    fun q => rfl, fun q => rfl, fun a b h => by simp [binary_mod, h], fun a => rfl, ?_⟩
  intro a b h
  cases a <;> cases b <;> simp_all [binary_mod, Value.is_int]

/-- Witness for C6 at concrete operands: 7 / 2 = 3 in Int division, 7
mod 3 = 1, and a Float left operand of MOD is a type error. -/
theorem C6_div_mod_zero_witness :
    binary_div (.int 7) (.int 2) = .ok (.int 3)
    ∧ binary_mod (.int 7) (.int 3) = .ok (.int 1)
    ∧ binary_mod (.float 1) (.int 1)
      = .error "Modulo requires two integers, got Float and Int" := by
  refine ⟨by simpa using C6_div_mod_zero.1 7 2 (by decide),
    by simpa using C6_div_mod_zero.2.2.2.2.2.1 7 3 (by decide),
    by simpa using C6_div_mod_zero.2.2.2.2.2.2.2 (.float 1) (.int 1) (Or.inl rfl)⟩

/-! ## Claim C7 -/

/-- C7: binary arithmetic promotes to Float when either operand is
Float and stays Int when both are Int, at the type-checking level
(check_binary_arithmetic, with no error recorded) and at the VM level
(binary_add computes in the rationals after coercing an Int operand
when the other is Float, and in the integers when both are Int). -/
theorem C7_type_promotion :
    (check_binary_arithmetic (.primitive .Int) (.primitive .Int) = (.primitive .Int, []))
    ∧ (check_binary_arithmetic (.primitive .Int) (.primitive .Float) = (.primitive .Float, []))
    ∧ (check_binary_arithmetic (.primitive .Float) (.primitive .Int) = (.primitive .Float, []))
    ∧ (check_binary_arithmetic (.primitive .Float) (.primitive .Float) = (.primitive .Float, []))
    ∧ (∀ a b : Int, binary_add (.int a) (.int b) = .ok (.int (a + b)))
    ∧ (∀ (a : Int) (q : ℚ), binary_add (.int a) (.float q) = .ok (.float ((a : ℚ) + q)))
    ∧ (∀ (q : ℚ) (b : Int), binary_add (.float q) (.int b) = .ok (.float (q + (b : ℚ))))
    ∧ (∀ p q : ℚ, binary_add (.float p) (.float q) = .ok (.float (p + q))) := by
  exact ⟨rfl, rfl, rfl, rfl, fun a b => rfl, fun a q => rfl, fun q b => rfl, fun p q => rfl⟩

/-! ## Claim C10 -/

/-- C10: executing STORE_LOCAL writes the top-of-stack value into the
current frame's locals at the decoded index without popping it — the
operand stack is unchanged and the slot then holds the value — and the
compiler lowers a let with an identifier pattern to the initializer's
code followed directly by a 3-byte STORE_LOCAL with no POP, so the
initializer's value stays behind on the operand stack (observed
concretely: after the two instructions compiled for let x = 42 the
operand stack still holds Int 42 and locals[0] = Int 42). -/
theorem C10_store_local_no_pop :
    (∀ (bc : Bytecode) (frame : CallFrame) (frames : List CallFrame)
        (v : Value) (rest : List Value) (lo hi : Nat),
      bc.instructions.get? frame.instruction_pointer = some OpCode.STORE_LOCAL.toByte →
      bc.instructions.get? (frame.instruction_pointer + 1) = some lo →
      bc.instructions.get? (frame.instruction_pointer + 2) = some hi →
      step bc ⟨v :: rest, frame :: frames⟩
        = .ok (.next ⟨v :: rest,
            { frame with
              instruction_pointer := frame.instruction_pointer + 3
              locals := frame.locals.set (lo + 256 * hi) v } :: frames⟩))
    ∧ (∀ (frame : CallFrame) (v : Value) (idx : Nat), idx < frame.locals.length →
        (frame.locals.set idx v).get? idx = some v)
    ∧ (∀ (st : CompilerState) (x : String) (e : Expr) (st1 : CompilerState)
        (sc : Scope) (rest : List Scope),
      compile_expr st e = .ok st1 →
      st1.scopes = sc :: rest →
      compile_stmt st (.let_stmt (.identifier x) e)
        = .ok { st1 with
            bytecode := st1.bytecode.emit_u16 .STORE_LOCAL sc.local_count
            scopes := ⟨(x, sc.local_count) :: sc.locals, sc.local_count + 1⟩ :: rest })
    ∧ (∀ (bc : Bytecode) (op : OpCode) (operand : Nat),
        (bc.emit_u16 op operand).instructions
          = bc.instructions ++ [op.toByte, operand % 256, operand / 256 % 256])
    ∧ observe_after let_identifier_program 2 = .ok ⟨[.int 42], [⟨0, 6, 0, [.int 42]⟩]⟩ := by
  refine ⟨?_, ?_, ?_, fun bc op operand => rfl, rfl⟩
  · intro bc frame frames v rest lo hi h1 h2 h3
    simp only [step, h1, OpCode.toByte, OpCode.ofByte, read_u16]
    rw [show frame.instruction_pointer + 1 + 1 = frame.instruction_pointer + 2 from rfl]
    rw [h2, h3]
  · intro frame v idx h
    rw [List.get?_eq_getElem?]
    exact List.getElem?_set_eq_of_lt v h
  · intro st x e st1 sc rest h1 h2
    simp only [compile_stmt, h1, compile_pattern, CompilerState.declare_local, h2,
      CompilerState.emit_u16, if_true]

/-- Witness for C10 at concrete inputs: a STORE_LOCAL 1 step that leaves
the stack unchanged, and the compiled form of let x = 5. -/
theorem C10_store_local_no_pop_witness :
    step ⟨[4, 1, 0], [], []⟩ ⟨[.int 7], [⟨0, 0, 0, [.int 0, .int 0]⟩]⟩
      = .ok (.next ⟨[.int 7], [⟨0, 3, 0, [.int 0, .int 7]⟩]⟩)
    ∧ compile_stmt ⟨{}, [⟨[], 0⟩], []⟩ (.let_stmt (.identifier "x") (.int_literal 5))
      = .ok ⟨⟨[0, 0, 0, 4, 0, 0], [.int 5], []⟩, [⟨[("x", 0)], 1⟩], []⟩ := by
  constructor
  · have h := C10_store_local_no_pop.1 ⟨[4, 1, 0], [], []⟩ ⟨0, 0, 0, [.int 0, .int 0]⟩ []
      (.int 7) [] 1 0 rfl rfl rfl
    simpa using h
  · have h := C10_store_local_no_pop.2.2.1 ⟨{}, [⟨[], 0⟩], []⟩ "x" (.int_literal 5)
      ⟨⟨[0, 0, 0], [.int 5], []⟩, [⟨[], 0⟩], []⟩ ⟨[], 0⟩ [] rfl rfl
    simpa using h

/-! ## Claim C2 -/

/-- C2 counterexample: in callee_with_let_program the caller's operand
stack is empty before the CALL (height 0) and the call passes 0
arguments, so the claim predicts height 0 - 0 + 1 = 1 on resumption.
After 5 dispatch steps (CALL, then the callee's CONSTANT, STORE_LOCAL,
LOAD_LOCAL, RETURN) the callee has returned — the call stack is back to
the single main frame — but the caller's operand-stack height is 2: the
let statement's STORE_LOCAL peeked instead of popping, leaving a
residual value beneath the return value. -/
theorem C2_frame_isolation_counterexample :
    observe_after callee_with_let_program 5
      = .ok ⟨[.int 5, .int 5], [⟨1, 14, 0, []⟩]⟩
    ∧ (2 : Nat) ≠ 0 - 0 + 1 := ⟨rfl, by decide⟩

/-- C2 (amended): a successful CALL pops exactly its arg_count argument
values and pushes the callee frame (resuming the caller later at the
instruction after the CALL), and RETURN pops only the call frame,
leaving the operand stack untouched; hence on resumption the caller's
operand-stack height is height_before - arg_count plus however many
values the callee's body pushed net. That is 1 when the body pushes
only its return value (callee_return_only_program: height 1 after the
matching RETURN), but each executed let statement leaves one extra
value (callee_with_let_program: height 2). -/
theorem C2_call_return_stack_effect :
    (∀ (bc : Bytecode) (popped rest : List Value) (frame : CallFrame)
        (frames : List CallFrame) (func_idx : Nat) (func_info : FunctionInfo),
      bc.instructions.get? frame.instruction_pointer = some OpCode.CALL.toByte →
      read_u16 bc.instructions (frame.instruction_pointer + 1) = some func_idx →
      bc.instructions.get? (frame.instruction_pointer + 3) = some func_info.param_count →
      bc.functions.get? func_idx = some func_info →
      popped.length = func_info.param_count →
      step bc ⟨popped ++ rest, frame :: frames⟩
        = .ok (.next ⟨rest,
            ⟨func_idx, func_info.offset, rest.length,
              init_locals func_info.local_count popped.reverse⟩ ::
            { frame with instruction_pointer := frame.instruction_pointer + 4 } :: frames⟩))
    ∧ (∀ (bc : Bytecode) (stack : List Value) (f g : CallFrame) (frames : List CallFrame),
        bc.instructions.get? f.instruction_pointer = some OpCode.RETURN.toByte →
        step bc ⟨stack, f :: g :: frames⟩ = .ok (.next ⟨stack, g :: frames⟩))
    ∧ (∀ (bc : Bytecode) (stack : List Value) (f : CallFrame),
        bc.instructions.get? f.instruction_pointer = some OpCode.RETURN.toByte →
        step bc ⟨stack, [f]⟩ = .ok (.halted ⟨stack, []⟩))
    ∧ observe_after callee_return_only_program 3 = .ok ⟨[.int 5], [⟨1, 8, 0, []⟩]⟩
    ∧ observe_after callee_with_let_program 5
      = .ok ⟨[.int 5, .int 5], [⟨1, 14, 0, []⟩]⟩ := by
  refine ⟨?_, ?_, ?_, rfl, rfl⟩
  · intro bc popped rest frame frames func_idx func_info h1 h2 h3 h4 h5
    obtain ⟨hlt, hget⟩ := List.get?_eq_some.mp h4
    simp only [step, h1, OpCode.toByte, OpCode.ofByte, h2, h3, hlt, dite_true, hget]
    rw [if_neg (by simp), ← h5, pop_values_append]
  · intro bc stack f g frames h1
    simp only [step, h1, OpCode.toByte, OpCode.ofByte]
  · intro bc stack f h1
    simp only [step, h1, OpCode.toByte, OpCode.ofByte]

/-- Witness for C2 at a concrete two-instruction program: CALL 0 with
no arguments pushes the callee frame and leaves the empty stack, and a
RETURN in the callee pops back to the caller with the stack intact. -/
theorem C2_call_return_stack_effect_witness :
    step ⟨[31, 0, 0, 0, 32], [], [⟨"f", 4, 0, 0⟩]⟩
      ⟨[], [⟨1, 0, 0, []⟩]⟩
      = .ok (.next ⟨[], [⟨0, 4, 0, []⟩, ⟨1, 4, 0, []⟩]⟩)
    ∧ step ⟨[31, 0, 0, 0, 32], [], [⟨"f", 4, 0, 0⟩]⟩
      ⟨[.int 9], [⟨0, 4, 0, []⟩, ⟨1, 4, 0, []⟩]⟩
      = .ok (.next ⟨[.int 9], [⟨1, 4, 0, []⟩]⟩) := by
  constructor
  · have h := C2_call_return_stack_effect.1 ⟨[31, 0, 0, 0, 32], [], [⟨"f", 4, 0, 0⟩]⟩
      [] [] ⟨1, 0, 0, []⟩ [] 0 ⟨"f", 4, 0, 0⟩ rfl rfl rfl rfl rfl
    simpa using h
  · have h := C2_call_return_stack_effect.2.1 ⟨[31, 0, 0, 0, 32], [], [⟨"f", 4, 0, 0⟩]⟩
      [.int 9] ⟨0, 4, 0, []⟩ ⟨1, 4, 0, []⟩ [] rfl
    simpa using h

/-! ## Claim C9 -/

/-- C9: truthiness is Bool itself, Int nonzero, Float nonzero, String
non-empty, List/Tuple non-empty, Function true; JUMP_IF_FALSE takes its
jump exactly when the peeked top of stack is falsy and leaves the
operand stack unchanged either way (peek, not pop); and NOT pops the
value and pushes the Bool negation of its truthiness. -/
theorem C9_truthiness_agreement :
    (∀ b, (Value.bool b).is_truthy = b)
    ∧ (∀ i : Int, ((Value.int i).is_truthy = true ↔ i ≠ 0))
    ∧ (∀ q : ℚ, ((Value.float q).is_truthy = true ↔ q ≠ 0))
    ∧ (∀ s : String, ((Value.string s).is_truthy = true ↔ s ≠ ""))
    ∧ (∀ xs : List Value, ((Value.list xs).is_truthy = true ↔ xs ≠ []))
    ∧ (∀ xs : List Value, ((Value.tuple xs).is_truthy = true ↔ xs ≠ []))
    ∧ (∀ i n, (Value.function i n).is_truthy = true)
    ∧ (∀ (bc : Bytecode) (frame : CallFrame) (frames : List CallFrame)
        (v : Value) (rest : List Value) (lo hi : Nat),
      bc.instructions.get? frame.instruction_pointer = some OpCode.JUMP_IF_FALSE.toByte →
      bc.instructions.get? (frame.instruction_pointer + 1) = some lo →
      bc.instructions.get? (frame.instruction_pointer + 2) = some hi →
      (v.is_truthy = false →
        0 ≤ (frame.instruction_pointer + 3 : Int) + to_int16 (lo + 256 * hi) →
        step bc ⟨v :: rest, frame :: frames⟩
          = .ok (.next ⟨v :: rest,
              { frame with instruction_pointer :=
                  ((frame.instruction_pointer + 3 : Int)
                    + to_int16 (lo + 256 * hi)).toNat } :: frames⟩))
      ∧ (v.is_truthy = true →
        step bc ⟨v :: rest, frame :: frames⟩
          = .ok (.next ⟨v :: rest,
              { frame with instruction_pointer :=
                  frame.instruction_pointer + 3 } :: frames⟩)))
    ∧ (∀ (bc : Bytecode) (frame : CallFrame) (frames : List CallFrame)
        (v : Value) (rest : List Value),
      bc.instructions.get? frame.instruction_pointer = some OpCode.NOT.toByte →
      step bc ⟨v :: rest, frame :: frames⟩
        = .ok (.next ⟨.bool (!v.is_truthy) :: rest,
            { frame with instruction_pointer :=
                frame.instruction_pointer + 1 } :: frames⟩)) := by
  refine ⟨fun b => rfl, fun i => by simp [Value.is_truthy], fun q => by simp [Value.is_truthy],
    fun s => by simp [Value.is_truthy], fun xs => by simp [Value.is_truthy],
    fun xs => by simp [Value.is_truthy], fun i n => rfl, ?_, ?_⟩
  · intro bc frame frames v rest lo hi h1 h2 h3
    have hr : read_u16 bc.instructions (frame.instruction_pointer + 1)
        = some (lo + 256 * hi) := by
      unfold read_u16
      rw [show frame.instruction_pointer + 1 + 1 = frame.instruction_pointer + 2 from rfl,
        h2, h3]
    constructor
    · intro hv htgt
      simp only [step, h1, OpCode.toByte, OpCode.ofByte, hr, hv, Bool.not_false, if_true]
      rw [if_neg (by omega)]
    · intro hv
      simp only [step, h1, OpCode.toByte, OpCode.ofByte, hr, hv]
      simp
  · intro bc frame frames v rest h1
    simp only [step, h1, OpCode.toByte, OpCode.ofByte, step_unary, unary_not]

/-- Witness for C9 at concrete inputs: JUMP_IF_FALSE 2 on a falsy Int 0
jumps to 5 while leaving Int 0 on the stack, on a truthy Int 1 it falls
through to 3, and NOT on Int 0 pushes Bool true. -/
theorem C9_truthiness_agreement_witness :
    step ⟨[29, 2, 0, 35, 35, 35], [], []⟩ ⟨[.int 0], [⟨0, 0, 0, []⟩]⟩
      = .ok (.next ⟨[.int 0], [⟨0, 5, 0, []⟩]⟩)
    ∧ step ⟨[29, 2, 0, 35, 35, 35], [], []⟩ ⟨[.int 1], [⟨0, 0, 0, []⟩]⟩
      = .ok (.next ⟨[.int 1], [⟨0, 3, 0, []⟩]⟩)
    ∧ step ⟨[20], [], []⟩ ⟨[.int 0], [⟨0, 0, 0, []⟩]⟩
      = .ok (.next ⟨[.bool true], [⟨0, 1, 0, []⟩]⟩) := by
  refine ⟨?_, ?_, ?_⟩
  · have h := (C9_truthiness_agreement.2.2.2.2.2.2.2.1 ⟨[29, 2, 0, 35, 35, 35], [], []⟩
      ⟨0, 0, 0, []⟩ [] (.int 0) [] 2 0 rfl rfl rfl).1 (by decide) (by decide)
    simpa using h
  · have h := (C9_truthiness_agreement.2.2.2.2.2.2.2.1 ⟨[29, 2, 0, 35, 35, 35], [], []⟩
      ⟨0, 0, 0, []⟩ [] (.int 1) [] 2 0 rfl rfl rfl).2 (by decide)
    simpa using h
  · have h := C9_truthiness_agreement.2.2.2.2.2.2.2.2 ⟨[20], [], []⟩
      ⟨0, 0, 0, []⟩ [] (.int 0) [] rfl
    simpa using h

/-! ## Claim C5 -/

/-- C5: executing JUMP, or JUMP_IF_FALSE with a falsy top of stack, or
JUMP_IF_TRUE with a truthy top of stack, sets the instruction pointer
to exactly ip_after_operand + k, where ip_after_operand is the opcode
position plus 3 and k is the little-endian int16 operand; emit_jump
appends the opcode with the 0xFFFF sentinel and returns the jump
instruction's offset; and patch_jump writes back
current_offset - (jump_opcode_offset + 3) as the int16 operand, so
while the distance fits in int16 the patched jump decodes to exactly
that distance and ip_after_operand + k is the offset that was current
when patch_jump was called. -/
theorem C5_jump_targeting :
    (∀ (bc : Bytecode) (stack : List Value) (frame : CallFrame)
        (frames : List CallFrame) (lo hi : Nat),
      bc.instructions.get? frame.instruction_pointer = some OpCode.JUMP.toByte →
      bc.instructions.get? (frame.instruction_pointer + 1) = some lo →
      bc.instructions.get? (frame.instruction_pointer + 2) = some hi →
      0 ≤ (frame.instruction_pointer + 3 : Int) + to_int16 (lo + 256 * hi) →
      step bc ⟨stack, frame :: frames⟩
        = .ok (.next ⟨stack,
            { frame with instruction_pointer :=
                ((frame.instruction_pointer + 3 : Int)
                  + to_int16 (lo + 256 * hi)).toNat } :: frames⟩))
    ∧ (∀ (bc : Bytecode) (frame : CallFrame) (frames : List CallFrame)
        (v : Value) (rest : List Value) (lo hi : Nat),
      bc.instructions.get? frame.instruction_pointer = some OpCode.JUMP_IF_FALSE.toByte →
      bc.instructions.get? (frame.instruction_pointer + 1) = some lo →
      bc.instructions.get? (frame.instruction_pointer + 2) = some hi →
      v.is_truthy = false →
      0 ≤ (frame.instruction_pointer + 3 : Int) + to_int16 (lo + 256 * hi) →
      step bc ⟨v :: rest, frame :: frames⟩
        = .ok (.next ⟨v :: rest,
            { frame with instruction_pointer :=
                ((frame.instruction_pointer + 3 : Int)
                  + to_int16 (lo + 256 * hi)).toNat } :: frames⟩))
    ∧ (∀ (bc : Bytecode) (frame : CallFrame) (frames : List CallFrame)
        (v : Value) (rest : List Value) (lo hi : Nat),
      bc.instructions.get? frame.instruction_pointer = some OpCode.JUMP_IF_TRUE.toByte →
      bc.instructions.get? (frame.instruction_pointer + 1) = some lo →
      bc.instructions.get? (frame.instruction_pointer + 2) = some hi →
      v.is_truthy = true →
      0 ≤ (frame.instruction_pointer + 3 : Int) + to_int16 (lo + 256 * hi) →
      step bc ⟨v :: rest, frame :: frames⟩
        = .ok (.next ⟨v :: rest,
            { frame with instruction_pointer :=
                ((frame.instruction_pointer + 3 : Int)
                  + to_int16 (lo + 256 * hi)).toNat } :: frames⟩))
    ∧ (∀ (st : CompilerState) (op : OpCode),
        (st.emit_jump op).1.bytecode.instructions
          = st.bytecode.instructions ++ [op.toByte, 255, 255]
        ∧ (st.emit_jump op).2 = st.bytecode.instructions.length)
    ∧ (∀ (st : CompilerState) (pre post : List Nat) (op : OpCode) (patched : List Nat),
      st.bytecode.instructions = pre ++ [op.toByte, 255, 255] ++ post →
      post.length < 32768 →
      patched = (st.bytecode.instructions.set (pre.length + 1) (post.length % 256)).set
        (pre.length + 2) (post.length / 256 % 256) →
      st.patch_jump pre.length
        = .ok { st with bytecode := { st.bytecode with instructions := patched } }
      ∧ read_u16 patched (pre.length + 1)
          = some (post.length % 256 + 256 * (post.length / 256 % 256))
      ∧ (pre.length + 3 : Int) + to_int16 (post.length % 256 + 256 * (post.length / 256 % 256))
          = st.bytecode.current_offset) := by
  refine ⟨?_, ?_, ?_, ?_, ?_⟩
  · intro bc stack frame frames lo hi h1 h2 h3 htgt
    have hr : read_u16 bc.instructions (frame.instruction_pointer + 1)
        = some (lo + 256 * hi) := by
      unfold read_u16
      rw [show frame.instruction_pointer + 1 + 1 = frame.instruction_pointer + 2 from rfl,
        h2, h3]
    simp only [step, h1, OpCode.toByte, OpCode.ofByte, hr]
    rw [if_neg (by omega)]
  · intro bc frame frames v rest lo hi h1 h2 h3 hv htgt
    have hr : read_u16 bc.instructions (frame.instruction_pointer + 1)
        = some (lo + 256 * hi) := by
      unfold read_u16
      rw [show frame.instruction_pointer + 1 + 1 = frame.instruction_pointer + 2 from rfl,
        h2, h3]
    simp only [step, h1, OpCode.toByte, OpCode.ofByte, hr, hv, Bool.not_false, if_true]
    rw [if_neg (by omega)]
  · intro bc frame frames v rest lo hi h1 h2 h3 hv htgt
    have hr : read_u16 bc.instructions (frame.instruction_pointer + 1)
        = some (lo + 256 * hi) := by
      unfold read_u16
      rw [show frame.instruction_pointer + 1 + 1 = frame.instruction_pointer + 2 from rfl,
        h2, h3]
    simp only [step, h1, OpCode.toByte, OpCode.ofByte, hr, hv, if_true]
    rw [if_neg (by omega)]
  · intro st op
    refine ⟨rfl, ?_⟩
    simp only [CompilerState.emit_jump, CompilerState.emit_u16, Bytecode.emit_u16,
      Bytecode.current_offset, List.length_append, List.length_cons, List.length_nil]
    omega
  · intro st pre post op patched hins hfit hpatched
    subst hpatched
    have hlen : st.bytecode.current_offset = pre.length + 3 + post.length := by
      simp only [Bytecode.current_offset, hins, List.length_append, List.length_cons,
        List.length_nil]
    have hd : st.bytecode.current_offset - (pre.length + 3) = post.length := by omega
    have hto : to_int16 post.length = (post.length : Int) := by
      unfold to_int16
      rw [Nat.mod_eq_of_lt (by omega)]
      simp [hfit]
    have hjump : to_int16 (st.bytecode.current_offset - (pre.length + 3))
        = (post.length : Int) := by rw [hd, hto]
    have hu : ((post.length : Int) % 65536).toNat = post.length := by omega
    have hlt1 : pre.length + 1 < st.bytecode.instructions.length := by
      rw [hins]
      simp only [List.length_append, List.length_cons, List.length_nil]
      omega
    have hlt2 : pre.length + 2 < st.bytecode.instructions.length := by
      rw [hins]
      simp only [List.length_append, List.length_cons, List.length_nil]
      omega
    refine ⟨?_, ?_, ?_⟩
    · simp only [CompilerState.patch_jump, Bytecode.patch_jump]
      rw [hjump]
      rw [if_neg (show ¬pre.length + 2 ≥ st.bytecode.instructions.length by omega)]
      rw [hu]
    · unfold read_u16
      rw [List.get?_eq_getElem?, List.get?_eq_getElem?]
      rw [show pre.length + 1 + 1 = pre.length + 2 from rfl]
      rw [List.getElem?_set_eq_of_lt _ (by simpa using hlt2)]
      rw [List.getElem?_set_ne (by omega)]
      rw [List.getElem?_set_eq_of_lt _ hlt1]
    · have hsplit : post.length % 256 + 256 * (post.length / 256 % 256) = post.length := by
        omega
      rw [hsplit, hto, hlen]
      push_cast
      ring

/-- Witness for C5 at concrete inputs: a JUMP with offset 2 lands at 5,
a patched forward jump over one byte decodes to distance 1 and lands at
the patch-time offset 5. -/
theorem C5_jump_targeting_witness :
    step ⟨[28, 2, 0, 35, 35, 35], [], []⟩ ⟨[], [⟨0, 0, 0, []⟩]⟩
      = .ok (.next ⟨[], [⟨0, 5, 0, []⟩]⟩)
    ∧ CompilerState.patch_jump ⟨⟨[35, 28, 255, 255, 35], [], []⟩, [], []⟩ 1
      = .ok ⟨⟨[35, 28, 1, 0, 35], [], []⟩, [], []⟩ := by
  constructor
  · have h := C5_jump_targeting.1 ⟨[28, 2, 0, 35, 35, 35], [], []⟩ []
      ⟨0, 0, 0, []⟩ [] 2 0 rfl rfl rfl (by decide)
    simpa using h
  · have h := (C5_jump_targeting.2.2.2.2 ⟨⟨[35, 28, 255, 255, 35], [], []⟩, [], []⟩
      [35] [35] .JUMP [35, 28, 1, 0, 35] rfl (by decide) (by decide)).1
    simpa using h

/-! ## Claim C3 -/

/-- Helper for C3: any Error or Eof token in the tokenize loop's output
sits at the last position — the loop breaks immediately after pushing
either kind. -/
theorem tokenize_loop_break_last :
    ∀ (fuel : Nat) (src : List Char) (st : LexState) (ts : List Token) (stf : LexState)
      (i : Nat) (t : Token),
      tokenize_loop fuel src st = (ts, stf) →
      ts.get? i = some t →
      t.type = .Error ∨ t.type = .Eof →
      i = ts.length - 1 := by
  intro fuel
  induction fuel with
  | zero =>
    intro src st ts stf i t heq h1 h2
    simp only [tokenize_loop, Prod.mk.injEq] at heq
    rw [← heq.1] at h1
    simp at h1
  | succ fuel ih =>
    intro src st ts stf i t heq h1 h2
    rw [tokenize_loop] at heq
    by_cases hc : st.current < src.length
    · rw [if_pos hc] at heq
      rcases hnt : next_token (src.length + 1) src st with ⟨tok, st1⟩
      rw [hnt] at heq
      dsimp only at heq
      by_cases hbrk : tok.type = .Eof ∨ tok.type = .Error
      · rw [if_pos hbrk] at heq
        obtain ⟨hts, _⟩ := Prod.mk.injEq .. ▸ heq
        subst hts
        match i, h1 with
        | 0, _ => rfl
      · rw [if_neg hbrk] at heq
        rcases hloop : tokenize_loop fuel src st1 with ⟨toks, st2⟩
        rw [hloop] at heq
        obtain ⟨hts, _⟩ := Prod.mk.injEq .. ▸ heq
        subst hts
        match i, h1 with
        | 0, h1 =>
          obtain rfl : tok = t := by simpa using h1
          exact absurd h2.symm hbrk
        | j + 1, h1 =>
          have hj := ih src st1 toks st2 j t hloop (by simpa using h1) h2
          have hlt : j < toks.length := (List.get?_eq_some.mp (by simpa using h1)).1
          simp only [List.length_cons]
          omega
    · rw [if_neg hc] at heq
      obtain ⟨hts, _⟩ := Prod.mk.injEq .. ▸ heq
      rw [← hts] at h1
      simp at h1

/-- C3 counterexample: the source text with a lexical error (the
standalone bang) followed by the well-formed lexeme 42 tokenizes to
just the Error token and the EOF sentinel — no IntLiteral token for 42
is produced, although tokenizing 42 alone yields one. The tokenize loop
breaks as soon as it has pushed the first Error token. -/
theorem C3_lexer_halts_counterexample :
    (tokenize "! 42").map Token.type = [.Error, .Eof]
    ∧ (tokenize "42").map Token.type = [.IntLiteral, .Eof] := by
  exact ⟨by decide, by decide⟩

/-- C3 (amended): tokenize does not continue past an error. For every
source text, any Error token in the output of tokenize is immediately
followed by the trailing EOF sentinel, which ends the token list; no
tokens are produced for lexemes after the first error. -/
theorem C3_error_token_ends_stream (source : String) (i : Nat) (t : Token)
    (h1 : (tokenize source).get? i = some t) (h2 : t.type = .Error) :
    (tokenize source).length = i + 2
    ∧ ∃ t2, (tokenize source).get? (i + 1) = some t2 ∧ t2.type = .Eof := by
  have hmain : ∀ (res : List Token), res = tokenize source →
      res.get? i = some t →
      res.length = i + 2 ∧ ∃ t2, res.get? (i + 1) = some t2 ∧ t2.type = .Eof := by
    intro res hres hget
    rcases hloop : tokenize_loop (source.data.length + 1) source.data ⟨0, 1, 0, 0⟩
      with ⟨ts, stf⟩
    have hres2 : res = match ts.getLast? with
        | none => ts ++ [make_token source.data stf .Eof none]
        | some tl =>
          if tl.type ≠ .Eof then ts ++ [make_token source.data stf .Eof none] else ts := by
      rw [hres]
      unfold tokenize tokenize_chars
      rw [hloop]
    rcases hlast : ts.getLast? with _ | tl
    · have hts : ts = [] := List.getLast?_eq_none_iff.mp hlast
      rw [hlast] at hres2
      dsimp only at hres2
      rw [hres2, hts] at hget
      match i, hget with
      | 0, hget =>
        obtain rfl : make_token source.data stf .Eof none = t := by simpa using hget
        exact absurd h2 (by simp [make_token])
    · rw [hlast] at hres2
      dsimp only at hres2
      by_cases heof : tl.type = .Eof
      · rw [if_neg (by simp [heof])] at hres2
        rw [hres2] at hget
        have hi := tokenize_loop_break_last _ _ _ _ _ i t hloop hget (Or.inl h2)
        have hne : ts ≠ [] := by
          intro hnil
          rw [hnil] at hlast
          simp at hlast
        have hlen : 0 < ts.length := List.length_pos.mpr hne
        have hget2 : ts.get? (ts.length - 1) = some tl := by
          rw [← List.getLast?_eq_get?, hlast]
        rw [hi] at hget
        rw [hget2] at hget
        obtain rfl : tl = t := by simpa using hget
        exact absurd h2 (by simp [heof])
      · rw [if_pos (by simp [heof])] at hres2
        rw [hres2] at hget
        have hilt : i < (ts ++ [make_token source.data stf .Eof none]).length :=
          (List.get?_eq_some.mp hget).1
        by_cases hits : i < ts.length
        · rw [List.get?_append hits] at hget
          have hi := tokenize_loop_break_last _ _ _ _ _ i t hloop hget (Or.inl h2)
          have hlen : 0 < ts.length := by omega
          constructor
          · simp only [hres2, List.length_append, List.length_cons, List.length_nil]
            omega
          · refine ⟨make_token source.data stf .Eof none, ?_, by simp [make_token]⟩
            rw [hres2]
            have : i + 1 = ts.length := by omega
            rw [this]
            exact List.get?_concat_length ts _
        · have hieq : i = ts.length := by
            simp only [List.length_append, List.length_cons, List.length_nil] at hilt
            omega
          rw [hieq, List.get?_concat_length] at hget
          obtain rfl : make_token source.data stf .Eof none = t := by simpa using hget
          exact absurd h2 (by simp [make_token])
  exact hmain (tokenize source) rfl h1

/-- Witness for C3: in the source text with a bang followed by 42 the
Error token sits at index 0, and the amended theorem places the EOF
sentinel right after it as the final token. -/
theorem C3_error_token_ends_stream_witness :
    (tokenize "! 42").length = 0 + 2
    ∧ ∃ t2, (tokenize "! 42").get? (0 + 1) = some t2 ∧ t2.type = .Eof := by
  exact C3_error_token_ends_stream "! 42" 0
    ⟨.Error, "", 1, 1, 0, 1, some (.string_val "Unexpected character \x27!\x27")⟩
    (by decide) rfl

/-! ## Claim C8 -/

/-- Helper for C8: the syntactic equality test implies equality (it
only ever answers true on identical constructors with equal, recursively
identical fields). -/
theorem expr_beq_sound (a b : Expr) (h : expr_beq a b = true) : a = b := by
  have key : ∀ (n : Nat) (a b : Expr), sizeOf a ≤ n → expr_beq a b = true → a = b := by
    intro n
    induction n with
    | zero =>
      intro a b hsz _
      exact absurd hsz (by cases a <;> simp)
    | succ n ih =>
      intro a b hsz h
      cases a <;> cases b <;>
        simp only [expr_beq, Bool.and_eq_true, decide_eq_true_eq] at h <;>
        try (exact Bool.noConfusion h)
      all_goals try (rw [h])
      · rename_i o1 l1 r1 o2 l2 r2
        obtain ⟨⟨ho, hl⟩, hr⟩ := h
        simp only [Expr.binary.sizeOf_spec] at hsz
        rw [ho, ih l1 l2 (by omega) hl, ih r1 r2 (by omega) hr]
      · rename_i o1 e1 o2 e2
        obtain ⟨ho, he⟩ := h
        simp only [Expr.unary.sizeOf_spec] at hsz
        rw [ho, ih e1 e2 (by omega) he]
  exact key (sizeOf a) a b le_rfl h

/-- Helper for C8: a positive boolean parse check yields the parse
equation itself. -/
theorem parse_result_is_ok (ts : List Token) (e : Expr)
    (h : parse_result_is ts e = true) :
    ∃ st2, parse_expression ⟨ts, 0⟩ = .ok (e, st2) := by
  unfold parse_result_is at h
  rcases hp : parse_expression ⟨ts, 0⟩ with e1 | p
  · rw [hp] at h
    simp at h
  · rw [hp] at h
    obtain ⟨e1, st2⟩ := p
    dsimp only at h
    exact ⟨st2, by rw [expr_beq_sound e1 e h]⟩

set_option maxHeartbeats 4000000 in
/-- C8: parsing a OP1 b OP2 c (identifier atoms) with OP2 of strictly
higher precedence puts OP1 at the root with OP2 in its right subtree;
a ** b ** c parses right-associatively (the right ** deeper) and
a + b + c parses left-associatively (the left + deeper). -/
theorem C8_precedence_parsing :
    (∀ t1 t2 : TokenType,
      is_binary_operator t1 = true → is_binary_operator t2 = true →
      get_binary_precedence t1 < get_binary_precedence t2 →
      ∀ op1 op2 : BinaryOp,
      binary_op_from_token t1 = some op1 → binary_op_from_token t2 = some op2 →
      ∃ st2, parse_expression ⟨schema_tokens t1 t2, 0⟩
        = .ok (.binary op1 (.identifier "a")
            (.binary op2 (.identifier "b") (.identifier "c")), st2))
    ∧ (∃ st2, parse_expression ⟨schema_tokens .Power .Power, 0⟩
        = .ok (.binary .Pow (.identifier "a")
            (.binary .Pow (.identifier "b") (.identifier "c")), st2))
    ∧ (∃ st2, parse_expression ⟨schema_tokens .Plus .Plus, 0⟩
        = .ok (.binary .Add (.binary .Add (.identifier "a") (.identifier "b"))
            (.identifier "c"), st2)) := by
  have Hmem : ∀ t : TokenType, is_binary_operator t = true → t ∈ binary_op_tokens := by
    decide
  have H : ∀ t1 ∈ binary_op_tokens, ∀ t2 ∈ binary_op_tokens,
      get_binary_precedence t1 < get_binary_precedence t2 →
      parse_result_is (schema_tokens t1 t2)
        (match binary_op_from_token t1, binary_op_from_token t2 with
          | some op1, some op2 => .binary op1 (.identifier "a")
              (.binary op2 (.identifier "b") (.identifier "c"))
          | _, _ => .int_literal 0) = true := by decide
  refine ⟨?_, parse_result_is_ok _ _ (by decide), parse_result_is_ok _ _ (by decide)⟩
  intro t1 t2 h1 h2 h3 op1 op2 e1 e2
  have h := H t1 (Hmem t1 h1) t2 (Hmem t2 h2) h3
  rw [e1, e2] at h
  dsimp only at h
  exact parse_result_is_ok _ _ h

/-- Witness for C8: a + b * c parses with + at the root and * in the
right subtree. -/
theorem C8_precedence_parsing_witness :
    ∃ st2, parse_expression ⟨schema_tokens .Plus .Star, 0⟩
      = .ok (.binary .Add (.identifier "a")
          (.binary .Mul (.identifier "b") (.identifier "c")), st2) :=
  C8_precedence_parsing.1 .Plus .Star rfl rfl (by decide) .Add .Mul rfl rfl

end Lucid
